import Mathlib

/-!
# Grid navigation of `src/ui/ui_grid.c`

A shallow embedding of the navigation state machine of the grid UI: the
file-scope variables of `ui_grid.c` become the fields of `State`, and every C
function becomes a Lean function on `State`.

* C `int` values are `Int`: the cursor is bounded by `list_len` and the
  cooldown only counts down to 0 or is reset to `INPUT_TIMEOUT`, so for a list
  whose length is not within a page of `INT_MAX` no modelled path overflows.
* The `float` coordinates of `vec2d` are copied around or assigned from small
  integer expressions by the functions modelled here, so they are modelled by
  rationals.
* The only unbounded loop, the column pull-back of `menu_row_down`, takes a
  fuel argument and returns `none` when the fuel does not suffice.
* The build is the 4:3 one (`ASPECT_WIDE` is `0`), so `COLUMNS = ROWS = 3` and
  `SCR_WIDTH = 640`.
-/

namespace UiGrid

/-! ## Constants (lines 26-68) -/

def SCR_WIDTH : Int := 640
def SCR_HEIGHT : Int := 480
def INPUT_TIMEOUT : Int := 10
def TILE_AREA_WIDTH : Int := 440
def TILE_AREA_HEIGHT : Int := 380
def COLUMNS : Int := 3
def ROWS : Int := 3
def GUTTER_SIDE : Int := (SCR_WIDTH - TILE_AREA_WIDTH) / 2
def GUTTER_TOP : Int := (SCR_HEIGHT - TILE_AREA_HEIGHT) / 2
def HORIZONTAL_SPACING : Int := 40
def VERTICAL_SPACING : Int := 10
def HIGHLIGHT_OVERHANG : Int := 4
def TILE_SIZE_X : Int := (TILE_AREA_WIDTH - ((COLUMNS - 1) * HORIZONTAL_SPACING)) / COLUMNS
def TILE_SIZE_Y : Int := (TILE_AREA_HEIGHT - ((ROWS - 1) * VERTICAL_SPACING)) / ROWS
def ANIM_FRAMES : Int := 15

def HIGHLIGHT_X_POS (col : Int) : Int :=
  GUTTER_SIDE - HIGHLIGHT_OVERHANG + ((HORIZONTAL_SPACING + TILE_SIZE_X) * col)

def HIGHLIGHT_Y_POS (row : Int) : Int :=
  GUTTER_TOP - HIGHLIGHT_OVERHANG + ((VERTICAL_SPACING + TILE_SIZE_Y) * row)

def TILE_X_POS (col : Int) : Int :=
  GUTTER_SIDE + ((HORIZONTAL_SPACING + TILE_SIZE_X) * col)

def TILE_Y_POS (row : Int) : Int :=
  GUTTER_TOP + ((VERTICAL_SPACING + TILE_SIZE_Y) * row)

/-- X_SCALE of the 4:3 build, `1.0f`. -/
def X_SCALE : ℚ := 1

/-! ## Data model -/

/-- Modelled from the spec: the `vec2d` of `animation.h`, a pair of floats. -/
structure vec2d where
  x : ℚ
  y : ℚ
deriving DecidableEq

/-- Modelled from the spec: the `anim1d` timer of `animation.h`
(`elapsedFrames`, `totalFrames`, `active`). -/
structure anim1d where
  frame_now : Int
  frame_len : Int
  active : Bool
deriving DecidableEq

/-- Modelled from the spec: the `anim2d` of `animation.h`; the C field `end`
is `end_` here. -/
structure anim2d where
  time : anim1d
  start : vec2d
  cur : vec2d
  end_ : vec2d
deriving DecidableEq

/-- Modelled from the spec: `anim_active` of `animation.h`, "true while the
`active` flag is set regardless of progress". -/
def anim_active (t : anim1d) : Bool := t.active

/-- Modelled from the spec: `anim_alive` of `animation.h`, "true while
`active` and `elapsedFrames < totalFrames`". -/
def anim_alive (t : anim1d) : Bool := t.active && decide (t.frame_now < t.frame_len)

/-- The values of `enum sort_type` (line 100). -/
def DEFAULT : Nat := 0
def ALPHA : Nat := 1
def DATE : Nat := 2
def PRODUCT : Nat := 3
def SORT_END : Nat := 4

/-- The values of `enum theme` (line 156). -/
def NTSC_U : Nat := 0
def NTSC_J : Nat := 1
def PAL : Nat := 2
def THEME_END : Nat := 3

/-- The list a `list_current` pointer was obtained from. -/
inductive list_ref where
  | list_get
  | list_get_sort_default
  | list_get_sort_name
  | list_get_sort_date
  | list_get_sort_product
deriving DecidableEq, Repr

/-- The buttons `handle_input` switches on. -/
inductive control where
  | NONE | LEFT | RIGHT | UP | DOWN | TRIG_L | TRIG_R | A | START | Y | X | B
deriving DecidableEq, Repr

/-- The file-scope variables of `ui_grid.c` (lines 70-105, 161), and three
logs for the calls that leave the file: `rungd_log` holds the list indices
whose `slot_num` was passed to `dreamcast_rungd`, `ui_cycle_next_calls` counts
the calls of `ui_cycle_next`, `init_calls` those of `GRID_3_init`. -/
structure State where
  screen_row : Int
  screen_column : Int
  current_starting_index : Int
  navigate_timeout : Int
  frames_focused : Int
  boxart_button_held : Bool
  direction_last : Bool
  direction_current : Bool
  pos_highlight : vec2d
  anim_highlight : anim2d
  anim_large_art_pos : anim2d
  anim_large_art_scale : anim2d
  list_current : list_ref
  list_len : Int
  sort_current : Nat
  theme_current : Nat
  rungd_log : List Int
  ui_cycle_next_calls : Nat
  init_calls : Nat
deriving DecidableEq

/-- The macro `direction_held` (line 80). -/
def direction_held (s : State) : Bool := s.direction_last && s.direction_current

/-! ## Cursor (lines 174-176, 280-307) -/

def current_selected (s : State) : Int :=
  s.current_starting_index + (s.screen_row * COLUMNS) + s.screen_column

def menu_row_up (s : State) : State :=
  let s := { s with screen_row := s.screen_row - 1 }
  if s.screen_row < 0 then
    let s := { s with screen_row := 0,
                      current_starting_index := s.current_starting_index - COLUMNS }
    if s.current_starting_index < 0 then
      { s with current_starting_index := 0 }
    else s
  else s

/-- One pass through the body of the `while` loop of `menu_row_down`
(lines 301-305). -/
def menu_row_down_loop_body (s : State) : State :=
  let s := { s with screen_column := s.screen_column - 1 }
  if s.screen_column < 0 then
    menu_row_up { s with screen_column := COLUMNS - 1 }
  else s

/-- The `while (current_selected() >= list_len)` loop of `menu_row_down`
(lines 300-306); `fuel` bounds the number of passes through the body. -/
def menu_row_down_loop : Nat → State → Option State
  | 0, s => if current_selected s ≥ s.list_len then none else some s
  | fuel + 1, s =>
    if current_selected s ≥ s.list_len then
      menu_row_down_loop fuel (menu_row_down_loop_body s)
    else some s

/-- The part of `menu_row_down` before its loop (lines 292-299): the row
step, with the page advance and its revert. -/
def menu_row_down_page_step (s : State) : State :=
  let s := { s with screen_row := s.screen_row + 1 }
  if s.screen_row ≥ ROWS then
    let s := { s with screen_row := ROWS - 1,
                      current_starting_index := s.current_starting_index + COLUMNS }
    if current_selected s > s.list_len then
      { s with current_starting_index := s.current_starting_index - COLUMNS }
    else s
  else s

def menu_row_down (fuel : Nat) (s : State) : Option State :=
  menu_row_down_loop fuel (menu_row_down_page_step s)

/-! ## Animation set-up (lines 193-207, 309-312) -/

def setup_highlight_animation (s : State) : State :=
  let start_x := s.pos_highlight.x
  let start_y := s.pos_highlight.y
  let start_x := if anim_active s.anim_highlight.time then s.anim_highlight.cur.x else start_x
  let start_y := if anim_active s.anim_highlight.time then s.anim_highlight.cur.y else start_y
  { s with anim_highlight :=
      { s.anim_highlight with
        start := { x := start_x, y := start_y },
        end_ := { x := (HIGHLIGHT_X_POS s.screen_column : Int),
                  y := (HIGHLIGHT_Y_POS s.screen_row : Int) },
        time := { frame_now := 0, frame_len := ANIM_FRAMES, active := true } } }

def kill_large_art_animation (s : State) : State :=
  { s with
    anim_large_art_pos :=
      { s.anim_large_art_pos with time := { s.anim_large_art_pos.time with active := false } },
    anim_large_art_scale :=
      { s.anim_large_art_scale with
        time := { s.anim_large_art_scale.time with active := false } } }

/-! ## Movement commands (lines 314-387) -/

/-- The guard `direction_held && navigate_timeout > 0` at the head of the four
movement commands. -/
def movement_suppressed (s : State) : Bool :=
  direction_held s && decide (s.navigate_timeout > 0)

/-- The branch taken when the guard holds: `navigate_timeout--; return;`. -/
def suppress (s : State) : State :=
  { s with navigate_timeout := s.navigate_timeout - 1 }

/-- The tail shared by the four movement commands (for example lines
323-327). -/
def movement_epilogue (s : State) : State :=
  let s := kill_large_art_animation (setup_highlight_animation s)
  { s with frames_focused := 0, navigate_timeout := INPUT_TIMEOUT }

/-- The loop `while (amount--) menu_row_up();`. -/
def menu_row_up_times : Nat → State → State
  | 0, s => s
  | amount + 1, s => menu_row_up_times amount (menu_row_up s)

/-- The loop `while (amount--) menu_row_down();`. -/
def menu_row_down_times (fuel : Nat) : Nat → State → Option State
  | 0, s => some s
  | amount + 1, s => (menu_row_down fuel s).bind (menu_row_down_times fuel amount)

/-- The part of `menu_up` after the guard (lines 320-327). -/
def menu_up_body (amount : Nat) (s : State) : State :=
  movement_epilogue (menu_row_up_times amount s)

def menu_up (amount : Nat) (s : State) : State :=
  if movement_suppressed s then suppress s else menu_up_body amount s

/-- The part of `menu_down` after the guard (lines 336-343). -/
def menu_down_body (fuel : Nat) (amount : Nat) (s : State) : Option State :=
  (menu_row_down_times fuel amount s).map movement_epilogue

def menu_down (fuel : Nat) (amount : Nat) (s : State) : Option State :=
  if movement_suppressed s then some (suppress s) else menu_down_body fuel amount s

/-- The part of `menu_left` after the guard (lines 352-365). -/
def menu_left_body (s : State) : State :=
  let s := { s with screen_column := s.screen_column - 1 }
  let s := if current_selected s < 0 then { s with screen_column := 0 } else s
  let s :=
    if s.screen_column < 0 then menu_row_up { s with screen_column := COLUMNS - 1 } else s
  movement_epilogue s

def menu_left (s : State) : State :=
  if movement_suppressed s then suppress s else menu_left_body s

/-- The part of `menu_right` after the guard (lines 373-386). -/
def menu_right_body (fuel : Nat) (s : State) : Option State :=
  let s := { s with screen_column := s.screen_column + 1 }
  let s :=
    if current_selected s ≥ s.list_len then { s with screen_column := s.screen_column - 1 }
    else s
  let r :=
    if s.screen_column ≥ COLUMNS then menu_row_down fuel { s with screen_column := 0 }
    else some s
  r.map movement_epilogue

def menu_right (fuel : Nat) (s : State) : Option State :=
  if movement_suppressed s then some (suppress s) else menu_right_body fuel s

/-! ## Other commands (lines 389-469) -/

/-- The call `dreamcast_rungd(list_current[current_selected()]->slot_num)`:
the index read from the list is logged. -/
def menu_accept (s : State) : State :=
  { s with rungd_log := s.rungd_log ++ [current_selected s] }

/-- The guard `navigate_timeout > 0` at the head of `menu_swap_sort`,
`menu_cycle_ui` and `menu_theme_cycle`. -/
def command_suppressed (s : State) : Bool := decide (s.navigate_timeout > 0)

def menu_swap_sort (s : State) : State :=
  if command_suppressed s then suppress s
  else
    let s := { s with sort_current := s.sort_current + 1 }
    let s := if s.sort_current = SORT_END then { s with sort_current := DEFAULT } else s
    let s :=
      if s.sort_current = ALPHA then { s with list_current := list_ref.list_get_sort_name }
      else if s.sort_current = DATE then { s with list_current := list_ref.list_get_sort_date }
      else if s.sort_current = PRODUCT then
        { s with list_current := list_ref.list_get_sort_product }
      else { s with list_current := list_ref.list_get_sort_default }
    { s with frames_focused := 0, screen_column := 0, screen_row := 0,
             current_starting_index := 0, navigate_timeout := INPUT_TIMEOUT }

def menu_cycle_ui (s : State) : State :=
  if command_suppressed s then suppress s
  else
    { s with ui_cycle_next_calls := s.ui_cycle_next_calls + 1,
             navigate_timeout := INPUT_TIMEOUT }

def menu_theme_cycle (s : State) : State :=
  if command_suppressed s then suppress s
  else
    let s := { s with theme_current := s.theme_current + 1 }
    let s := if s.theme_current = THEME_END then { s with theme_current := 0 } else s
    { s with init_calls := s.init_calls + 1, navigate_timeout := INPUT_TIMEOUT }

def menu_show_large_art (s : State) : State :=
  if !s.boxart_button_held && !anim_active s.anim_large_art_scale.time then
    { s with
      anim_large_art_pos :=
        { s.anim_large_art_pos with
          start := { x := (TILE_X_POS s.screen_column + (TILE_SIZE_X / 2) : Int),
                     y := (TILE_Y_POS s.screen_row + (TILE_SIZE_Y / 2) : Int) },
          end_ := { x := (TILE_X_POS 1 + (TILE_SIZE_X / 2) : Int),
                    y := (TILE_Y_POS 1 + (TILE_SIZE_Y / 2) : Int) },
          time := { frame_now := 0, frame_len := 30, active := true } },
      anim_large_art_scale :=
        { s.anim_large_art_scale with
          start := { x := (TILE_SIZE_X : Int), y := (TILE_SIZE_X : Int) },
          end_ := { x := ((TILE_AREA_WIDTH + HIGHLIGHT_OVERHANG * 2 : Int) : ℚ) * X_SCALE,
                    y := (TILE_AREA_HEIGHT + HIGHLIGHT_OVERHANG * 2 : Int) },
          time := { frame_now := 0, frame_len := 30, active := true } } }
  else s

/-! ## Input (lines 524-585) -/

/-- The `switch` of `handle_input` (lines 530-578). -/
def dispatch (fuel : Nat) (button : control) (s : State) : Option State :=
  match button with
  | control.LEFT => some (menu_left { s with direction_current := true })
  | control.RIGHT => menu_right fuel { s with direction_current := true }
  | control.UP => some (menu_up 1 { s with direction_current := true })
  | control.DOWN => menu_down fuel 1 { s with direction_current := true }
  | control.TRIG_L => some (menu_up ROWS.toNat { s with direction_current := true })
  | control.TRIG_R => menu_down fuel ROWS.toNat { s with direction_current := true }
  | control.A => some (menu_accept s)
  | control.START => some (menu_swap_sort s)
  | control.Y => some (menu_cycle_ui s)
  | control.X => some { menu_show_large_art s with boxart_button_held := true }
  | control.B => some (menu_theme_cycle s)
  | control.NONE => some s

/-- The three assignments at the head of `handle_input` (lines 525-527). -/
def input_prologue (s : State) : State :=
  { s with direction_last := s.direction_current,
           direction_current := false,
           boxart_button_held := false }

/-- The two clamps at the end of `handle_input` (lines 579-584). -/
def input_epilogue (s : State) : State :=
  let s := if s.screen_row < 0 then { s with screen_row := 0 } else s
  if s.screen_column < 0 then { s with screen_column := 0 } else s

def handle_input (fuel : Nat) (button : control) (s : State) : Option State :=
  (dispatch fuel button (input_prologue s)).map input_epilogue

/-! ## Animation engine -/

/-- Modelled from the spec: `anim_tick` of `animation.h` (tickForward), "if
`active`, increments `elapsedFrames` by 1, clamped to `totalFrames`". -/
def anim_tick (t : anim1d) : anim1d :=
  if t.active then { t with frame_now := min (t.frame_now + 1) t.frame_len } else t

/-- Modelled from the spec: `anim_tick_backward` of `animation.h`
(tickBackward), "if `active`, decrements `elapsedFrames` by 1, clamped to
0". -/
def anim_tick_backward (t : anim1d) : anim1d :=
  if t.active then { t with frame_now := max (t.frame_now - 1) 0 } else t

/-- Modelled from the spec: the progress `elapsedFrames/totalFrames` used by
recompute, where "`totalFrames = 0` must not divide by zero: treat as
immediately complete". -/
def anim_progress (t : anim1d) : ℚ :=
  if t.frame_len = 0 then 1 else (t.frame_now : ℚ) / (t.frame_len : ℚ)

/-- Linear interpolation from `a` to `b` at progress `p`. -/
def lerp (a b p : ℚ) : ℚ := a + (b - a) * p

/-- Modelled from the spec: `anim_update_2d` of `animation.h` (recompute),
"sets `current = lerp(start, end, elapsedFrames/totalFrames)`, each axis
independently". -/
def anim_update_2d (a : anim2d) : anim2d :=
  { a with cur := { x := lerp a.start.x a.end_.x (anim_progress a.time),
                    y := lerp a.start.y a.end_.y (anim_progress a.time) } }

/-- Modelled from the spec: `anim_clear` of `animation.h`. The spec gives the
fields of an animation and says it is created at session start; the cleared
animation is taken to be the zero value, with `active = false`. -/
def anim_clear (_ : anim2d) : anim2d :=
  { time := { frame_now := 0, frame_len := 0, active := false },
    start := { x := 0, y := 0 }, cur := { x := 0, y := 0 }, end_ := { x := 0, y := 0 } }

/-! ## Frame update and drawing (lines 178-278, 510-522, 591-599) -/

/-- The function `setup` (lines 510-522); `len` is the value returned by
`list_length()`. -/
def setup (len : Int) (s : State) : State :=
  { s with list_current := list_ref.list_get, list_len := len,
           screen_column := 0, screen_row := 0, current_starting_index := 0,
           navigate_timeout := INPUT_TIMEOUT, sort_current := DEFAULT,
           anim_highlight := anim_clear s.anim_highlight,
           anim_large_art_pos := anim_clear s.anim_large_art_pos,
           anim_large_art_scale := anim_clear s.anim_large_art_scale }

def update_time (s : State) : State :=
  let s :=
    if anim_alive s.anim_highlight.time then
      { s with anim_highlight :=
          anim_update_2d { s.anim_highlight with time := anim_tick s.anim_highlight.time } }
    else s
  let s :=
    if s.boxart_button_held && anim_alive s.anim_large_art_scale.time then
      { s with
        anim_large_art_pos :=
          anim_update_2d
            { s.anim_large_art_pos with time := anim_tick s.anim_large_art_pos.time },
        anim_large_art_scale :=
          anim_update_2d
            { s.anim_large_art_scale with time := anim_tick s.anim_large_art_scale.time } }
    else s
  if !s.boxart_button_held && anim_alive s.anim_large_art_scale.time then
    { s with
      anim_large_art_pos :=
        anim_update_2d
          { s.anim_large_art_pos with time := anim_tick_backward s.anim_large_art_pos.time },
      anim_large_art_scale :=
        anim_update_2d
          { s.anim_large_art_scale with
            time := anim_tick_backward s.anim_large_art_scale.time } }
  else s

/-- What a drawing pass leaves behind: the state, the positions at which the
highlight was drawn (`draw_static_highlight`, `draw_animated_highlight`), and
the indices at which `list_current` was read, both in order. -/
structure Drawn where
  state : State
  highlight : List vec2d
  reads : List Int
deriving DecidableEq

/-- The static highlight position that `draw_grid_boxes` computes for the tile
of `row` and `column` (lines 232-235, 245-246): `x_pos` and `y_pos` converted
to float, `x_pos` scaled by `X_SCALE`, the overhang subtracted. -/
def static_highlight_pos (row column : Int) : vec2d :=
  let x_pos : ℚ := ((GUTTER_SIDE + ((HORIZONTAL_SPACING + TILE_SIZE_X) * column) : Int) : ℚ)
  let y_pos : ℚ := ((GUTTER_TOP + ((VERTICAL_SPACING + TILE_SIZE_Y) * row) : Int) : ℚ)
  let x_pos := x_pos * X_SCALE
  { x := x_pos - ((HIGHLIGHT_OVERHANG : Int) : ℚ) * X_SCALE,
    y := y_pos - ((HIGHLIGHT_OVERHANG : Int) : ℚ) }

/-- One pass through the body of the inner loop of `draw_grid_boxes`
(lines 224-249). -/
def draw_tile (row column : Int) (d : Drawn) : Drawn :=
  let s := d.state
  let idx := (row * COLUMNS) + column
  if s.current_starting_index + idx < 0 then d
  else if s.current_starting_index + idx ≥ s.list_len then d
  else
    let d := { d with reads := d.reads ++ [s.current_starting_index + idx] }
    if s.current_starting_index + idx = current_selected s then
      if anim_alive s.anim_highlight.time then
        { d with highlight := d.highlight ++ [s.anim_highlight.cur] }
      else
        { d with state := { s with pos_highlight := static_highlight_pos row column },
                 highlight := d.highlight ++ [static_highlight_pos row column] }
    else d

/-- The tiles in the order of the two `for` loops of `draw_grid_boxes`. -/
def grid_tiles : List (Int × Int) :=
  (List.range ROWS.toNat).flatMap fun row =>
    (List.range COLUMNS.toNat).map fun column => ((row : Int), (column : Int))

def draw_tiles : List (Int × Int) → Drawn → Drawn
  | [], d => d
  | (row, column) :: rest, d => draw_tiles rest (draw_tile row column d)

/-- The list read of `draw_large_art` (line 180), made whenever the scale
animation is active. -/
def draw_large_art (d : Drawn) : Drawn :=
  if anim_active d.state.anim_large_art_scale.time then
    { d with reads := d.reads ++ [current_selected d.state] }
  else d

def draw_grid_boxes (s : State) : Drawn :=
  draw_large_art (draw_tiles grid_tiles { state := s, highlight := [], reads := [] })

/-- The function `drawTR` (lines 591-599): `update_time`, `draw_grid_boxes`,
then the title of `list_current[current_selected()]`. -/
def drawTR (s : State) : Drawn :=
  let d := draw_grid_boxes (update_time s)
  { d with reads := d.reads ++ [current_selected d.state] }

/-- One frame: `handle_input`, then `drawTR`. -/
def frame (fuel : Nat) (button : control) (s : State) : Option Drawn :=
  (handle_input fuel button s).map drawTR

/-- The frames of a list of buttons, one after the other. -/
def run_frames (fuel : Nat) : List control → State → Option State
  | [], s => some s
  | button :: rest, s => (frame fuel button s).bind fun d => run_frames fuel rest d.state

/-- The calls of `handle_input` for a list of buttons, one after the
other. -/
def run_input (fuel : Nat) : List control → State → Option State
  | [], s => some s
  | button :: rest, s => (handle_input fuel button s).bind (run_input fuel rest)

/-! ## Vocabulary of the properties -/

/-- The GridPosition invariant of the data model: row and column inside the
grid, a non-negative page start, and a selected index inside the list. -/
def GridValid (s : State) : Prop :=
  0 ≤ s.screen_row ∧ s.screen_row < ROWS ∧
  0 ≤ s.screen_column ∧ s.screen_column < COLUMNS ∧
  0 ≤ s.current_starting_index ∧
  0 ≤ current_selected s ∧ current_selected s < s.list_len

instance (s : State) : Decidable (GridValid s) := by
  unfold GridValid; infer_instance

/-- The page start is a multiple of `COLUMNS`. -/
def PageAligned (s : State) : Prop := s.current_starting_index % COLUMNS = 0

instance (s : State) : Decidable (PageAligned s) := by
  unfold PageAligned; infer_instance

/-- Two states have the same GridPosition. -/
def SameGrid (s t : State) : Prop :=
  t.screen_row = s.screen_row ∧ t.screen_column = s.screen_column ∧
  t.current_starting_index = s.current_starting_index

instance (s t : State) : Decidable (SameGrid s t) := by
  unfold SameGrid; infer_instance

/-- The GridPosition is the origin. -/
def AtOrigin (s : State) : Prop :=
  s.screen_row = 0 ∧ s.screen_column = 0 ∧ s.current_starting_index = 0

instance (s : State) : Decidable (AtOrigin s) := by
  unfold AtOrigin; infer_instance

/-- State `t` differs from `s` in the GridPosition at most. -/
def OnlyGrid (s t : State) : Prop :=
  t = { s with screen_row := t.screen_row, screen_column := t.screen_column,
               current_starting_index := t.current_starting_index }

/-- An accepted movement step: a row step, or the part of a movement command
after its guard. -/
inductive MoveStep where
  | row_up
  | row_down
  | up (amount : Nat)
  | down (amount : Nat)
  | left
  | right
deriving DecidableEq, Repr

def apply_step (fuel : Nat) (m : MoveStep) (s : State) : Option State :=
  match m with
  | MoveStep.row_up => some (menu_row_up s)
  | MoveStep.row_down => menu_row_down fuel s
  | MoveStep.up amount => some (menu_up_body amount s)
  | MoveStep.down amount => menu_down_body fuel amount s
  | MoveStep.left => some (menu_left_body s)
  | MoveStep.right => menu_right_body fuel s

def run_steps (fuel : Nat) : List MoveStep → State → Option State
  | [], s => some s
  | m :: ms, s => (apply_step fuel m s).bind (run_steps fuel ms)

/-- The buttons whose case in `handle_input` sets `direction_current`. -/
def is_direction (button : control) : Bool :=
  match button with
  | control.LEFT | control.RIGHT | control.UP | control.DOWN
  | control.TRIG_L | control.TRIG_R => true
  | _ => false

/-- Whether a direction button passed to `handle_input` in state `s` gets past
the guard of its movement command: the guard is evaluated after the head of
`handle_input` and the assignment `direction_current = true` of the case. -/
def movement_executes (s : State) : Bool :=
  !movement_suppressed { input_prologue s with direction_current := true }

/-- The same button passed to `handle_input` for `frames` consecutive frames:
for each frame whether the movement command got past its guard, and the final
state. -/
def hold_trace (fuel : Nat) (button : control) : Nat → State → Option (List Bool × State)
  | 0, s => some ([], s)
  | frames + 1, s =>
    (handle_input fuel button s).bind fun s1 =>
      (hold_trace fuel button frames s1).map fun r => (movement_executes s :: r.1, r.2)

/-- The movement step a direction button stands for. -/
def step_of_button (button : control) : Option MoveStep :=
  match button with
  | control.LEFT => some MoveStep.left
  | control.RIGHT => some MoveStep.right
  | control.UP => some (MoveStep.up 1)
  | control.DOWN => some (MoveStep.down 1)
  | control.TRIG_L => some (MoveStep.up ROWS.toNat)
  | control.TRIG_R => some (MoveStep.down ROWS.toNat)
  | _ => none

/-- The guard outcomes of `frames` consecutive frames of one direction button,
computed from `direction_current` and `navigate_timeout` alone. -/
def gate_trace : Nat → Bool → Int → List Bool
  | 0, _, _ => []
  | frames + 1, current, timeout =>
    let executes := !(current && decide (timeout > 0))
    executes :: gate_trace frames true (if executes then INPUT_TIMEOUT else timeout - 1)

/-- The highlight animation of `t` has been retargeted from where the
highlight of `s` was: it starts at the `cur` of the animation of `s` when that
one was active and at `pos_highlight` otherwise, ends on the tile of the row
and column of `t`, and runs from frame 0 for `ANIM_FRAMES` frames. -/
def HighlightRetargeted (s t : State) : Prop :=
  t.anim_highlight.start =
    (if anim_active s.anim_highlight.time then s.anim_highlight.cur else s.pos_highlight) ∧
  t.anim_highlight.end_ =
    { x := (HIGHLIGHT_X_POS t.screen_column : Int), y := (HIGHLIGHT_Y_POS t.screen_row : Int) } ∧
  t.anim_highlight.time.frame_now = 0 ∧ t.anim_highlight.time.frame_len = 15 ∧
  t.anim_highlight.time.active = true

instance (s t : State) : Decidable (HighlightRetargeted s t) := by
  unfold HighlightRetargeted; infer_instance

/-- A state for examples: everything zero or false, the cursor at
`(row, column)` of the page starting at `start`, a list of `len` items. -/
def sample (row column start len : Int) : State :=
  { screen_row := row, screen_column := column, current_starting_index := start,
    navigate_timeout := INPUT_TIMEOUT, frames_focused := 0,
    boxart_button_held := false, direction_last := false, direction_current := false,
    pos_highlight := { x := 0, y := 0 },
    anim_highlight :=
      { time := { frame_now := 0, frame_len := 0, active := false },
        start := { x := 0, y := 0 }, cur := { x := 0, y := 0 }, end_ := { x := 0, y := 0 } },
    anim_large_art_pos :=
      { time := { frame_now := 0, frame_len := 0, active := false },
        start := { x := 0, y := 0 }, cur := { x := 0, y := 0 }, end_ := { x := 0, y := 0 } },
    anim_large_art_scale :=
      { time := { frame_now := 0, frame_len := 0, active := false },
        start := { x := 0, y := 0 }, cur := { x := 0, y := 0 }, end_ := { x := 0, y := 0 } },
    list_current := list_ref.list_get, list_len := len,
    sort_current := DEFAULT, theme_current := NTSC_U,
    rungd_log := [], ui_cycle_next_calls := 0, init_calls := 0 }

/-- The state `sample` with the highlight animation in flight: active, at
frame 3 of 15, currently at `(100, 50)` on its way from `(96, 46)` to
`(256, 46)`. -/
def sample_in_flight (row column start len : Int) : State :=
  { sample row column start len with
    anim_highlight :=
      { time := { frame_now := 3, frame_len := 15, active := true },
        start := { x := 96, y := 46 }, cur := { x := 100, y := 50 },
        end_ := { x := 256, y := 46 } } }

/-- Both large-art preview animations are inactive. -/
def PreviewCancelled (s : State) : Prop :=
  s.anim_large_art_pos.time.active = false ∧ s.anim_large_art_scale.time.active = false

instance (s : State) : Decidable (PreviewCancelled s) := by
  unfold PreviewCancelled; infer_instance

/-- The state `sample 1 1 0 20` with both preview animations active at frame
`frame` of 30, on their way from the tile of row 1, column 1 to the enlarged
art, and with `boxart_button_held` as given. -/
def sample_preview (frame : Int) (held : Bool) : State :=
  { sample 1 1 0 20 with
    boxart_button_held := held,
    anim_large_art_pos :=
      { time := { frame_now := frame, frame_len := 30, active := true },
        start := { x := 320, y := 240 }, cur := { x := 320, y := 240 },
        end_ := { x := 320, y := 240 } },
    anim_large_art_scale :=
      { time := { frame_now := frame, frame_len := 30, active := true },
        start := { x := 120, y := 120 }, cur := { x := 120, y := 120 },
        end_ := { x := 448, y := 388 } } }

/-- A sequence of frames: one idle frame, RIGHT, fifteen idle frames in which
the highlight animation runs to its end, then START held for ten frames while
the cooldown runs down. -/
def snap_scenario : List control :=
  [control.NONE, control.RIGHT] ++ List.replicate 15 control.NONE ++
    List.replicate 10 control.START

/-- The GridPosition of a state as a triple (row, column, page start). -/
def grid (s : State) : Int × Int × Int :=
  (s.screen_row, s.screen_column, s.current_starting_index)

/-! ## Row steps -/

theorem menu_row_up_valid (s : State) (h : GridValid s) : GridValid (menu_row_up s) := by
  unfold GridValid current_selected COLUMNS ROWS at h
  unfold GridValid current_selected menu_row_up COLUMNS ROWS
  dsimp only
  split_ifs <;> dsimp only <;> omega

theorem menu_row_up_aligned (s : State) (h : PageAligned s) : PageAligned (menu_row_up s) := by
  unfold PageAligned COLUMNS at h
  unfold PageAligned menu_row_up COLUMNS
  dsimp only
  split_ifs <;> dsimp only <;> omega

theorem menu_row_up_list_len (s : State) : (menu_row_up s).list_len = s.list_len := by
  unfold menu_row_up
  dsimp only
  split_ifs <;> rfl

/-- One pass of the pull-back loop from a slot that is not the first of its
page moves the selection back by one and stays on the page. -/
theorem loop_body_in_page (s : State) (hr : 0 ≤ s.screen_row) (hc0 : 0 ≤ s.screen_column)
    (hc : s.screen_column < COLUMNS)
    (hsel : s.current_starting_index < current_selected s) :
    let t := menu_row_down_loop_body s
    t.current_starting_index = s.current_starting_index ∧ t.list_len = s.list_len ∧
    0 ≤ t.screen_row ∧ t.screen_row ≤ s.screen_row ∧
    0 ≤ t.screen_column ∧ t.screen_column < COLUMNS ∧
    current_selected t = current_selected s - 1 := by
  unfold current_selected COLUMNS at *
  unfold menu_row_down_loop_body menu_row_up COLUMNS
  dsimp only
  split_ifs <;> dsimp only <;> omega

/-- The pull-back loop, entered on a page that starts inside the list, ends
after at most `k` passes when the selection is at most `k` past the last
item; it stays on the page and stops on the last item or where it started. -/
theorem loop_in_page (k : Nat) : ∀ (s : State) (fuel : Nat), k ≤ fuel →
    0 ≤ s.screen_row → 0 ≤ s.screen_column → s.screen_column < COLUMNS →
    s.current_starting_index < s.list_len →
    current_selected s - (s.list_len - 1) ≤ k →
    ∃ t, menu_row_down_loop fuel s = some t ∧
      t.current_starting_index = s.current_starting_index ∧ t.list_len = s.list_len ∧
      0 ≤ t.screen_row ∧ t.screen_row ≤ s.screen_row ∧
      0 ≤ t.screen_column ∧ t.screen_column < COLUMNS ∧
      current_selected t = min (current_selected s) (s.list_len - 1) := by
  induction k with
  | zero =>
    intro s fuel _ hr hc0 hc _ hk
    have hlt : ¬ current_selected s ≥ s.list_len := by omega
    refine ⟨s, ?_, rfl, rfl, hr, le_refl _, hc0, hc, ?_⟩
    · cases fuel <;> simp [menu_row_down_loop, hlt]
    · omega
  | succ k ih =>
    intro s fuel hf hr hc0 hc hpage hk
    by_cases hge : current_selected s ≥ s.list_len
    · obtain ⟨f, rfl⟩ : ∃ f, fuel = f + 1 := ⟨fuel - 1, by omega⟩
      have hb := loop_body_in_page s hr hc0 hc (by omega)
      dsimp only at hb
      obtain ⟨b1, b2, b3, b4, b5, b6, b7⟩ := hb
      obtain ⟨t, ht, t1, t2, t3, t4, t5, t6, t7⟩ :=
        ih (menu_row_down_loop_body s) f (by omega) b3 b5 b6 (by omega) (by omega)
      refine ⟨t, ?_, by omega, by omega, t3, by omega, t5, t6, ?_⟩
      · simp [menu_row_down_loop, hge, ht]
      · omega
    · refine ⟨s, ?_, rfl, rfl, hr, le_refl _, hc0, hc, ?_⟩
      · cases fuel <;> simp [menu_row_down_loop, hge]
      · omega

/-! ## What the row steps leave alone -/

theorem onlyGrid_refl (s : State) : OnlyGrid s s := rfl

theorem onlyGrid_trans {s t u : State} (h1 : OnlyGrid s t) (h2 : OnlyGrid t u) :
    OnlyGrid s u := by
  unfold OnlyGrid at *
  rw [h2, h1]

theorem menu_row_up_onlyGrid (s : State) : OnlyGrid s (menu_row_up s) := by
  unfold OnlyGrid menu_row_up
  dsimp only
  split_ifs <;> rfl

theorem loop_body_onlyGrid (s : State) : OnlyGrid s (menu_row_down_loop_body s) := by
  unfold menu_row_down_loop_body
  dsimp only
  split_ifs
  · refine onlyGrid_trans ?_ (menu_row_up_onlyGrid _)
    exact rfl
  · rfl

theorem loop_onlyGrid (fuel : Nat) : ∀ (s t : State),
    menu_row_down_loop fuel s = some t → OnlyGrid s t := by
  induction fuel with
  | zero =>
    intro s t h
    unfold menu_row_down_loop at h
    split_ifs at h
    cases h
    rfl
  | succ n ih =>
    intro s t h
    unfold menu_row_down_loop at h
    split_ifs at h
    · exact onlyGrid_trans (loop_body_onlyGrid s) (ih _ _ h)
    · cases h
      rfl

theorem menu_row_down_onlyGrid (fuel : Nat) (s t : State)
    (h : menu_row_down fuel s = some t) : OnlyGrid s t := by
  unfold menu_row_down at h
  refine onlyGrid_trans ?_ (loop_onlyGrid fuel _ _ h)
  unfold menu_row_down_page_step
  dsimp only
  split_ifs <;> exact rfl

/-! ## The downward row step from a valid position -/

/-- The row step before the loop, from a valid position: the row stays in the
grid, the column is kept, and the page advances exactly when the cursor is on
the last row and the advanced selection is at most `list_len`. -/
theorem page_step_valid (s : State) (h : GridValid s) :
    let p := menu_row_down_page_step s
    p.list_len = s.list_len ∧ p.screen_column = s.screen_column ∧
    0 ≤ p.screen_row ∧ p.screen_row < ROWS ∧
    (if s.screen_row + 1 < ROWS then
      p.current_starting_index = s.current_starting_index ∧
        p.screen_row = s.screen_row + 1
    else if current_selected s + COLUMNS > s.list_len then
      p.current_starting_index = s.current_starting_index ∧ p.screen_row = s.screen_row
    else
      p.current_starting_index = s.current_starting_index + COLUMNS ∧
        p.screen_row = s.screen_row) := by
  unfold GridValid current_selected COLUMNS ROWS at h
  unfold menu_row_down_page_step current_selected COLUMNS ROWS
  dsimp only
  split_ifs <;> dsimp only <;> omega

/-- From a valid position `menu_row_down` returns, with three passes of the
pull-back loop at most, in a valid position: one row further down on the same
page, or on the next page, pulled back to the last item when that slot is past
the end of the list; on the last row it stays put when the page advance
overshoots. -/
theorem menu_row_down_valid (s : State) (h : GridValid s) (fuel : Nat) (hf : 3 ≤ fuel) :
    ∃ t, menu_row_down fuel s = some t ∧ GridValid t ∧ t.list_len = s.list_len ∧
      (if s.screen_row + 1 < ROWS then
        t.current_starting_index = s.current_starting_index ∧
          current_selected t = min (current_selected s + COLUMNS) (s.list_len - 1)
      else if current_selected s + COLUMNS > s.list_len then SameGrid s t
      else
        t.current_starting_index = s.current_starting_index + COLUMNS ∧
          current_selected t = min (current_selected s + COLUMNS) (s.list_len - 1)) := by
  have hp := page_step_valid s h
  dsimp only at hp
  obtain ⟨p1, p2, p3, p4, p5⟩ := hp
  have hv := h
  unfold GridValid at hv
  obtain ⟨v1, v2, v3, v4, v5, v6, v7⟩ := hv
  have hsel : current_selected (menu_row_down_page_step s) =
      (menu_row_down_page_step s).current_starting_index +
        (menu_row_down_page_step s).screen_row * 3 + s.screen_column := by
    unfold current_selected COLUMNS
    rw [p2]
  have hsel0 : current_selected s =
      s.current_starting_index + s.screen_row * 3 + s.screen_column := rfl
  have hC : COLUMNS = 3 := rfl
  have hR : ROWS = 3 := rfl
  rw [hC, hR] at p5
  rw [hR] at p4 v2
  rw [hC] at v4
  have hloop := loop_in_page 3 (menu_row_down_page_step s) fuel hf p3 (by omega)
    (by rw [p2, hC]; omega) (by split_ifs at p5 <;> omega) (by split_ifs at p5 <;> omega)
  obtain ⟨t, ht, t1, t2, t3, t4, t5, t6, t7⟩ := hloop
  have htsel : current_selected t =
      t.current_starting_index + t.screen_row * 3 + t.screen_column := rfl
  rw [hC] at t6
  refine ⟨t, ht, ?_, by omega, ?_⟩
  · unfold GridValid
    rw [hC, hR]
    split_ifs at p5 <;> (refine ⟨t3, ?_, t5, t6, ?_, ?_, ?_⟩ <;> omega)
  · unfold SameGrid
    rw [hC, hR]
    split_ifs at p5 ⊢ <;> omega

theorem menu_row_down_aligned (fuel : Nat) (s t : State) (h : GridValid s)
    (ha : PageAligned s) (hf : 3 ≤ fuel) (ht : menu_row_down fuel s = some t) :
    PageAligned t := by
  obtain ⟨u, hu, -, -, h4⟩ := menu_row_down_valid s h fuel hf
  rw [ht] at hu
  cases hu
  unfold PageAligned SameGrid COLUMNS ROWS at *
  split_ifs at h4 <;> omega

/-! ## The tail of the movement commands -/

theorem movement_epilogue_valid (s : State) (h : GridValid s) :
    GridValid (movement_epilogue s) := h

theorem movement_epilogue_aligned (s : State) (h : PageAligned s) :
    PageAligned (movement_epilogue s) := h

theorem movement_epilogue_sameGrid (s : State) : SameGrid s (movement_epilogue s) :=
  ⟨rfl, rfl, rfl⟩

theorem movement_epilogue_selected (s : State) :
    current_selected (movement_epilogue s) = current_selected s := rfl

theorem movement_epilogue_list_len (s : State) :
    (movement_epilogue s).list_len = s.list_len := rfl

/-- The pull-back loop does nothing when the selection is inside the list. -/
theorem loop_noop (fuel : Nat) (s : State) (h : current_selected s < s.list_len) :
    menu_row_down_loop fuel s = some s := by
  have hlt : ¬ current_selected s ≥ s.list_len := by omega
  cases fuel <;> simp [menu_row_down_loop, hlt]

/-! ## Left and right from a valid position -/

/-- The cursor part of `menu_left` (lines 352-359). -/
theorem menu_left_body_valid (s : State) (h : GridValid s) (ha : PageAligned s) :
    GridValid (menu_left_body s) ∧ PageAligned (menu_left_body s) ∧
    (menu_left_body s).list_len = s.list_len ∧
    (0 < current_selected s → current_selected (menu_left_body s) = current_selected s - 1) ∧
    (current_selected s = 0 → SameGrid s (menu_left_body s)) := by
  unfold GridValid PageAligned current_selected COLUMNS ROWS at *
  unfold SameGrid menu_left_body movement_epilogue kill_large_art_animation
    setup_highlight_animation menu_row_up current_selected COLUMNS
  dsimp only
  split_ifs <;> (try dsimp only at *) <;> omega

/-- The cursor part of `menu_right` (lines 373-380), from a valid position:
no pass of the pull-back loop is needed. -/
theorem menu_right_body_valid (s : State) (h : GridValid s) (fuel : Nat) :
    ∃ t, menu_right_body fuel s = some t ∧ GridValid t ∧ t.list_len = s.list_len ∧
      (PageAligned s → PageAligned t) ∧
      (current_selected s < s.list_len - 1 → current_selected t = current_selected s + 1) ∧
      (current_selected s = s.list_len - 1 → SameGrid s t) := by
  unfold GridValid PageAligned current_selected COLUMNS ROWS at *
  unfold SameGrid menu_right_body menu_row_down menu_row_down_page_step current_selected
    COLUMNS ROWS
  dsimp only
  split_ifs <;> (try dsimp only at *) <;>
    (try rw [loop_noop fuel _ (by unfold current_selected COLUMNS; (try dsimp only); omega)]) <;>
    refine ⟨_, rfl, ?_⟩ <;>
    unfold movement_epilogue kill_large_art_animation setup_highlight_animation <;>
    dsimp only <;> omega

/-! ## Sequences of movement steps -/

theorem menu_row_up_times_valid (amount : Nat) : ∀ (s : State),
    GridValid s ∧ PageAligned s →
    GridValid (menu_row_up_times amount s) ∧ PageAligned (menu_row_up_times amount s) ∧
      (menu_row_up_times amount s).list_len = s.list_len := by
  induction amount with
  | zero => intro s h; exact ⟨h.1, h.2, rfl⟩
  | succ n ih =>
    intro s h
    obtain ⟨h1, h2, h3⟩ := ih (menu_row_up s) ⟨menu_row_up_valid s h.1, menu_row_up_aligned s h.2⟩
    exact ⟨h1, h2, by rw [← menu_row_up_list_len s]; exact h3⟩

theorem menu_row_down_times_valid (fuel : Nat) (hf : 3 ≤ fuel) (amount : Nat) :
    ∀ (s : State), GridValid s ∧ PageAligned s →
    ∃ t, menu_row_down_times fuel amount s = some t ∧ GridValid t ∧ PageAligned t ∧
      t.list_len = s.list_len := by
  induction amount with
  | zero => intro s h; exact ⟨s, rfl, h.1, h.2, rfl⟩
  | succ n ih =>
    intro s h
    obtain ⟨u, hu, u1, u2, -⟩ := menu_row_down_valid s h.1 fuel hf
    obtain ⟨t, ht, t1, t2, t3⟩ := ih u ⟨u1, menu_row_down_aligned fuel s u h.1 h.2 hf hu⟩
    refine ⟨t, ?_, t1, t2, by omega⟩
    simp [menu_row_down_times, hu, ht]

theorem apply_step_valid (fuel : Nat) (hf : 3 ≤ fuel) (m : MoveStep) (s : State)
    (h : GridValid s ∧ PageAligned s) :
    ∃ t, apply_step fuel m s = some t ∧ (GridValid t ∧ PageAligned t) ∧
      t.list_len = s.list_len := by
  cases m with
  | row_up =>
    exact ⟨_, rfl, ⟨menu_row_up_valid s h.1, menu_row_up_aligned s h.2⟩, menu_row_up_list_len s⟩
  | row_down =>
    obtain ⟨u, hu, u1, u2, -⟩ := menu_row_down_valid s h.1 fuel hf
    exact ⟨u, hu, ⟨u1, menu_row_down_aligned fuel s u h.1 h.2 hf hu⟩, u2⟩
  | up amount =>
    obtain ⟨h1, h2, h3⟩ := menu_row_up_times_valid amount s h
    exact ⟨_, rfl, ⟨movement_epilogue_valid _ h1, movement_epilogue_aligned _ h2⟩, h3⟩
  | down amount =>
    obtain ⟨t, ht, t1, t2, t3⟩ := menu_row_down_times_valid fuel hf amount s h
    refine ⟨movement_epilogue t, ?_,
      ⟨movement_epilogue_valid _ t1, movement_epilogue_aligned _ t2⟩, t3⟩
    simp [apply_step, menu_down_body, ht]
  | left =>
    obtain ⟨h1, h2, h3, -⟩ := menu_left_body_valid s h.1 h.2
    exact ⟨_, rfl, ⟨h1, h2⟩, h3⟩
  | right =>
    obtain ⟨t, ht, t1, t2, t3, -⟩ := menu_right_body_valid s h.1 fuel
    exact ⟨t, ht, ⟨t1, t3 h.2⟩, t2⟩

theorem run_steps_valid (fuel : Nat) (hf : 3 ≤ fuel) (steps : List MoveStep) :
    ∀ (s : State), GridValid s ∧ PageAligned s →
    ∃ t, run_steps fuel steps s = some t ∧ (GridValid t ∧ PageAligned t) ∧
      t.list_len = s.list_len := by
  induction steps with
  | nil => intro s h; exact ⟨s, rfl, h, rfl⟩
  | cons m ms ih =>
    intro s h
    obtain ⟨u, hu, u1, u2⟩ := apply_step_valid fuel hf m s h
    obtain ⟨t, ht, t1, t2⟩ := ih u u1
    refine ⟨t, ?_, t1, by omega⟩
    simp [run_steps, hu, ht]

theorem origin_valid (s : State) (hlen : 1 ≤ s.list_len) (h0 : AtOrigin s) :
    GridValid s ∧ PageAligned s := by
  unfold AtOrigin at h0
  unfold GridValid PageAligned current_selected COLUMNS ROWS
  omega

/-! ## The claims -/

/-- C1 (GridPosition invariant). For a list of at least one item, from any
state whose GridPosition is the origin (the one `setup` leaves), every finite
sequence of accepted movement steps (row steps, and the parts after the guard
of `menu_up`, `menu_down`, `menu_left`, `menu_right`, with any amounts)
returns, three passes of the pull-back loop per row step being enough, and the
state it returns has `0 ≤ screen_row < ROWS`, `0 ≤ screen_column < COLUMNS`,
`current_starting_index ≥ 0` and `0 ≤ current_selected() < list_len`. -/
theorem grid_position_invariant (s0 : State) (hlen : 1 ≤ s0.list_len) (h0 : AtOrigin s0)
    (steps : List MoveStep) (fuel : Nat) (hf : 3 ≤ fuel) :
    ∃ t, run_steps fuel steps s0 = some t ∧
      0 ≤ t.screen_row ∧ t.screen_row < ROWS ∧
      0 ≤ t.screen_column ∧ t.screen_column < COLUMNS ∧
      0 ≤ t.current_starting_index ∧
      0 ≤ current_selected t ∧ current_selected t < t.list_len ∧
      t.list_len = s0.list_len := by
  obtain ⟨t, ht, ⟨hv, -⟩, hl⟩ := run_steps_valid fuel hf steps s0 (origin_valid s0 hlen h0)
  obtain ⟨v1, v2, v3, v4, v5, v6, v7⟩ := hv
  exact ⟨t, ht, v1, v2, v3, v4, v5, v6, v7, hl⟩

/-- Witness of C1: a list of 7 items, the steps down by three rows, right,
one row down, left, up by three rows. -/
theorem grid_position_invariant_witness :
    1 ≤ (sample 0 0 0 7).list_len ∧ AtOrigin (sample 0 0 0 7) ∧ 3 ≤ 3 ∧
    ∃ t, run_steps 3
        [MoveStep.down 3, MoveStep.right, MoveStep.row_down, MoveStep.left, MoveStep.up 3]
        (sample 0 0 0 7) = some t ∧
      0 ≤ t.screen_row ∧ t.screen_row < ROWS ∧
      0 ≤ t.screen_column ∧ t.screen_column < COLUMNS ∧
      0 ≤ t.current_starting_index ∧
      0 ≤ current_selected t ∧ current_selected t < t.list_len ∧
      t.list_len = (sample 0 0 0 7).list_len :=
  ⟨by decide, by decide, by decide,
    grid_position_invariant (sample 0 0 0 7) (by decide) (by decide) _ 3 (by decide)⟩

/-- With no item in the list the pull-back loop never ends from a position
with non-negative row, column and page start: whatever the fuel, it runs
out. -/
theorem loop_empty_list (fuel : Nat) : ∀ (s : State), s.list_len ≤ 0 →
    0 ≤ s.screen_row → 0 ≤ s.screen_column → 0 ≤ s.current_starting_index →
    menu_row_down_loop fuel s = none := by
  induction fuel with
  | zero =>
    intro s hl hr hc hp
    have hge : current_selected s ≥ s.list_len := by
      unfold current_selected COLUMNS
      omega
    simp [menu_row_down_loop, hge]
  | succ n ih =>
    intro s hl hr hc hp
    have hge : current_selected s ≥ s.list_len := by
      unfold current_selected COLUMNS
      omega
    have hb : (menu_row_down_loop_body s).list_len ≤ 0 ∧
        0 ≤ (menu_row_down_loop_body s).screen_row ∧
        0 ≤ (menu_row_down_loop_body s).screen_column ∧
        0 ≤ (menu_row_down_loop_body s).current_starting_index := by
      unfold menu_row_down_loop_body menu_row_up COLUMNS
      dsimp only
      split_ifs <;> (try dsimp only at *) <;> omega
    simp [menu_row_down_loop, hge, ih _ hb.1 hb.2.1 hb.2.2.1 hb.2.2.2]

/-- C2 (empty list). With `list_len == 0`, at the origin and with the guard
open, `menu_up`, `menu_left` and `menu_right` return and leave the
GridPosition as it was, but `menu_down` with a positive amount does not
return: the pull-back loop of `menu_row_down` runs out of every fuel. -/
theorem empty_list_menu_down_never_returns (s : State) (hlen : s.list_len = 0)
    (h0 : AtOrigin s) (hgate : movement_suppressed s = false) (fuel amount : Nat) :
    SameGrid s (menu_up amount s) ∧ SameGrid s (menu_left s) ∧
    (∃ t, menu_right fuel s = some t ∧ SameGrid s t) ∧
    menu_down fuel (amount + 1) s = none := by
  obtain ⟨h1, h2, h3⟩ := h0
  refine ⟨?_, ?_, ?_, ?_⟩
  · unfold menu_up
    rw [hgate]
    have key : ∀ (n : Nat) (u : State), AtOrigin u → AtOrigin (menu_row_up_times n u) := by
      intro n
      induction n with
      | zero => intro u hu; exact hu
      | succ k ih =>
        intro u hu
        apply ih
        unfold AtOrigin at *
        unfold menu_row_up COLUMNS
        dsimp only
        split_ifs <;> (try dsimp only at *) <;> omega
    have := key amount s ⟨h1, h2, h3⟩
    unfold AtOrigin at this
    unfold SameGrid
    simp only [Bool.false_eq_true, if_false]
    show (menu_row_up_times amount s).screen_row = _ ∧
      (menu_row_up_times amount s).screen_column = _ ∧
      (menu_row_up_times amount s).current_starting_index = _
    omega
  · unfold menu_left
    rw [hgate]
    unfold SameGrid menu_left_body movement_epilogue kill_large_art_animation
      setup_highlight_animation menu_row_up current_selected COLUMNS
    simp only [Bool.false_eq_true, if_false]
    split_ifs <;> (try dsimp only at *) <;> omega
  · unfold menu_right
    rw [hgate]
    unfold SameGrid menu_right_body menu_row_down menu_row_down_page_step current_selected
      COLUMNS ROWS
    simp only [Bool.false_eq_true, if_false]
    split_ifs <;> (try dsimp only at *) <;>
      first
      | omega
      | (refine ⟨_, rfl, ?_⟩
         unfold movement_epilogue kill_large_art_animation setup_highlight_animation
         dsimp only
         omega)
  · unfold menu_down
    rw [hgate]
    have hp : (menu_row_down_page_step s).list_len ≤ 0 ∧
        0 ≤ (menu_row_down_page_step s).screen_row ∧
        0 ≤ (menu_row_down_page_step s).screen_column ∧
        0 ≤ (menu_row_down_page_step s).current_starting_index := by
      unfold menu_row_down_page_step current_selected COLUMNS ROWS
      dsimp only
      split_ifs <;> (try dsimp only at *) <;> omega
    simp [menu_down_body, menu_row_down_times, menu_row_down,
      loop_empty_list fuel _ hp.1 hp.2.1 hp.2.2.1 hp.2.2.2]

/-- Witness of C2: the state left by `setup` over an empty list, DOWN
pressed with five units of fuel. -/
theorem empty_list_menu_down_never_returns_witness :
    (sample 0 0 0 0).list_len = 0 ∧ AtOrigin (sample 0 0 0 0) ∧
    movement_suppressed (sample 0 0 0 0) = false ∧
    SameGrid (sample 0 0 0 0) (menu_up 1 (sample 0 0 0 0)) ∧
    SameGrid (sample 0 0 0 0) (menu_left (sample 0 0 0 0)) ∧
    (∃ t, menu_right 5 (sample 0 0 0 0) = some t ∧ SameGrid (sample 0 0 0 0) t) ∧
    menu_down 5 (0 + 1) (sample 0 0 0 0) = none :=
  ⟨by decide, by decide, by decide,
    empty_list_menu_down_never_returns (sample 0 0 0 0) (by decide) (by decide) (by decide) 5 0⟩

/-- More fuel does not change a result of the pull-back loop. -/
theorem loop_fuel_succ (fuel : Nat) : ∀ (s t : State),
    menu_row_down_loop fuel s = some t → menu_row_down_loop (fuel + 1) s = some t := by
  induction fuel with
  | zero =>
    intro s t h
    unfold menu_row_down_loop at h
    split_ifs at h with hc
    simpa [menu_row_down_loop, hc] using h
  | succ n ih =>
    intro s t h
    rw [menu_row_down_loop] at h
    rw [menu_row_down_loop]
    split_ifs at h ⊢ with hc
    · exact ih _ _ h
    · exact h

theorem loop_fuel_le (fuel fuel2 : Nat) (hle : fuel ≤ fuel2) (s t : State)
    (h : menu_row_down_loop fuel s = some t) : menu_row_down_loop fuel2 s = some t := by
  induction fuel2 with
  | zero =>
    obtain rfl : fuel = 0 := by omega
    exact h
  | succ n ih =>
    by_cases hn : fuel ≤ n
    · exact loop_fuel_succ n s t (ih hn)
    · obtain rfl : fuel = n + 1 := by omega
      exact h

/-- Two runs of `menu_row_down` that both return agree, whatever their
fuel. -/
theorem menu_row_down_fuel_agree (f1 f2 : Nat) (s t1 t2 : State)
    (h1 : menu_row_down f1 s = some t1) (h2 : menu_row_down f2 s = some t2) : t1 = t2 := by
  unfold menu_row_down at h1 h2
  have a := loop_fuel_le f1 (max f1 f2) (le_max_left _ _) _ _ h1
  have b := loop_fuel_le f2 (max f1 f2) (le_max_right _ _) _ _ h2
  rw [a] at b
  exact Option.some.inj b

theorem onlyGrid_sameGrid_eq (s t : State) (h1 : OnlyGrid s t) (h2 : SameGrid s t) :
    t = s := by
  unfold OnlyGrid at h1
  obtain ⟨a, b, c⟩ := h2
  rw [a, b, c] at h1
  exact h1

/-- C3 as amended (down/up round trip). From a valid position that is not on
the last row, `menu_row_down` returns, and `menu_row_up` after it gives back
exactly the original state if and only if the slot one row down holds an item
(`current_selected() + COLUMNS < list_len`), or the selected item is the last
of the list on row 0 of the page starting at 0 (the down step is then pulled
back onto it and the up step has nowhere to go). -/
theorem down_up_round_trip (s : State) (hv : GridValid s)
    (hint : s.screen_row + 1 < ROWS) (fuel : Nat) (hf : 3 ≤ fuel) :
    ∃ t, menu_row_down fuel s = some t ∧
      (menu_row_up t = s ↔
        (current_selected s + COLUMNS < s.list_len ∨
          (current_selected s = s.list_len - 1 ∧ s.screen_row = 0 ∧
            s.current_starting_index = 0))) := by
  obtain ⟨t, ht, tv, tl, h4⟩ := menu_row_down_valid s hv fuel hf
  rw [if_pos hint] at h4
  refine ⟨t, ht, ?_⟩
  have hog : OnlyGrid s (menu_row_up t) :=
    onlyGrid_trans (menu_row_down_onlyGrid fuel s t ht) (menu_row_up_onlyGrid t)
  have hsg : SameGrid s (menu_row_up t) ↔
      (current_selected s + COLUMNS < s.list_len ∨
        (current_selected s = s.list_len - 1 ∧ s.screen_row = 0 ∧
          s.current_starting_index = 0)) := by
    unfold GridValid current_selected COLUMNS ROWS at *
    unfold SameGrid menu_row_up COLUMNS
    dsimp only
    split_ifs <;> (try dsimp only at *) <;> omega
  constructor
  · intro heq
    apply hsg.1
    rw [heq]
    exact ⟨rfl, rfl, rfl⟩
  · intro hc
    exact onlyGrid_sameGrid_eq s _ hog (hsg.2 hc)

/-- Witness of C3 as amended: row 0, column 2 of a list of 9 items. -/
theorem down_up_round_trip_witness :
    GridValid (sample 0 2 0 9) ∧ (sample 0 2 0 9).screen_row + 1 < ROWS ∧ 3 ≤ 3 ∧
    ∃ t, menu_row_down 3 (sample 0 2 0 9) = some t ∧
      (menu_row_up t = sample 0 2 0 9 ↔
        (current_selected (sample 0 2 0 9) + COLUMNS < (sample 0 2 0 9).list_len ∨
          (current_selected (sample 0 2 0 9) = (sample 0 2 0 9).list_len - 1 ∧
            (sample 0 2 0 9).screen_row = 0 ∧
            (sample 0 2 0 9).current_starting_index = 0))) :=
  ⟨by decide, by decide, by decide,
    down_up_round_trip (sample 0 2 0 9) (by decide) (by decide) 3 (by decide)⟩

/-- Counterexample to C3 as stated: with 4 items, from row 0, column 2 (a
valid position, not on the last row) the down step is pulled back to row 1,
column 0, and the up step then lands on row 0, column 0; no amount of fuel
makes the round trip return to column 2. -/
theorem down_up_round_trip_counterexample :
    1 ≤ (sample 0 2 0 4).list_len ∧ GridValid (sample 0 2 0 4) ∧
    (sample 0 2 0 4).screen_row + 1 < ROWS ∧
    (menu_row_down 3 (sample 0 2 0 4)).map grid = some (1, 0, 0) ∧
    (menu_row_down 3 (sample 0 2 0 4)).map (fun t => grid (menu_row_up t)) = some (0, 0, 0) ∧
    ¬ ∃ fuel t, menu_row_down fuel (sample 0 2 0 4) = some t ∧
      SameGrid (sample 0 2 0 4) (menu_row_up t) := by
  refine ⟨by decide, by decide, by decide, by decide, by decide, ?_⟩
  rintro ⟨fuel, t, ht, hsg⟩
  have h3 : menu_row_down 3 (sample 0 2 0 4) = some (sample 1 0 0 4) := by decide
  have := menu_row_down_fuel_agree fuel 3 _ _ _ ht h3
  subst this
  revert hsg
  decide

theorem page_step_onlyGrid (s : State) : OnlyGrid s (menu_row_down_page_step s) := by
  unfold menu_row_down_page_step
  dsimp only
  split_ifs <;> exact rfl

/-- C4 (overshoot on the last row). From a valid position on the last row
whose page advance would overshoot the list
(`current_selected() + COLUMNS > list_len`), `menu_row_down` returns, with any
fuel, the state it was given: row, column and page start are unchanged. -/
theorem overshoot_reverts_page_advance (s : State) (hv : GridValid s)
    (hrow : s.screen_row = ROWS - 1) (hover : current_selected s + COLUMNS > s.list_len)
    (fuel : Nat) :
    menu_row_down fuel s = some s := by
  have hp := page_step_valid s hv
  dsimp only at hp
  obtain ⟨-, p2, -, -, p5⟩ := hp
  have hnot : ¬ s.screen_row + 1 < ROWS := by
    unfold ROWS at *
    omega
  rw [if_neg hnot, if_pos hover] at p5
  have heq : menu_row_down_page_step s = s :=
    onlyGrid_sameGrid_eq s _ (page_step_onlyGrid s) ⟨p5.2, p2, p5.1⟩
  unfold menu_row_down
  rw [heq]
  exact loop_noop fuel s hv.2.2.2.2.2.2

/-- Witness of C4: `ROWS = COLUMNS = 3`, 9 items, page start 0, row 2,
column 2: index 8 stays selected and the page start stays 0. -/
theorem overshoot_reverts_page_advance_witness :
    GridValid (sample 2 2 0 9) ∧ (sample 2 2 0 9).screen_row = ROWS - 1 ∧
    current_selected (sample 2 2 0 9) + COLUMNS > (sample 2 2 0 9).list_len ∧
    current_selected (sample 2 2 0 9) = 8 ∧
    menu_row_down 3 (sample 2 2 0 9) = some (sample 2 2 0 9) :=
  ⟨by decide, by decide, by decide, by decide,
    overshoot_reverts_page_advance (sample 2 2 0 9) (by decide) (by decide) (by decide) 3⟩

theorem run_rights_valid (fuel : Nat) (n : Nat) : ∀ (s : State), GridValid s →
    ∃ t, run_steps fuel (List.replicate n MoveStep.right) s = some t ∧ GridValid t ∧
      t.list_len = s.list_len := by
  induction n with
  | zero => intro s h; exact ⟨s, rfl, h, rfl⟩
  | succ k ih =>
    intro s h
    obtain ⟨u, hu, u1, u2, -⟩ := menu_right_body_valid s h fuel
    obtain ⟨t, ht, t1, t2⟩ := ih u u1
    refine ⟨t, ?_, t1, by omega⟩
    simp [List.replicate, run_steps, apply_step, hu, ht]

/-- C5 (rightward movement stays inside the list). From any valid position,
any number of consecutive accepted `menu_right` steps returns, with any fuel,
a valid position, so `current_selected() < list_len`; and when the last item
is selected, `menu_right` with its guard open returns the same
GridPosition. -/
theorem menu_right_never_crosses_end (s : State) (hv : GridValid s) (n fuel : Nat) :
    (∃ t, run_steps fuel (List.replicate n MoveStep.right) s = some t ∧ GridValid t ∧
      current_selected t < s.list_len) ∧
    (current_selected s = s.list_len - 1 → movement_suppressed s = false →
      ∃ t, menu_right fuel s = some t ∧ SameGrid s t) := by
  constructor
  · obtain ⟨t, ht, t1, t2⟩ := run_rights_valid fuel n s hv
    refine ⟨t, ht, t1, ?_⟩
    rw [← t2]
    exact t1.2.2.2.2.2.2
  · intro hlast hgate
    obtain ⟨t, ht, -, -, -, -, t5⟩ := menu_right_body_valid s hv fuel
    refine ⟨t, ?_, t5 hlast⟩
    unfold menu_right
    rw [hgate]
    exact ht

/-- Witness of C5: 7 items, index 6 selected (row 2, column 0), four steps
to the right, and one `menu_right` with the guard open. -/
theorem menu_right_never_crosses_end_witness :
    GridValid (sample 2 0 0 7) ∧ current_selected (sample 2 0 0 7) = 6 ∧
    (∃ t, run_steps 0 (List.replicate 4 MoveStep.right) (sample 2 0 0 7) = some t ∧
      GridValid t ∧ current_selected t < (sample 2 0 0 7).list_len) ∧
    (∃ t, menu_right 0 (sample 2 0 0 7) = some t ∧ SameGrid (sample 2 0 0 7) t) :=
  ⟨by decide, by decide,
    (menu_right_never_crosses_end (sample 2 0 0 7) (by decide) 4 0).1,
    (menu_right_never_crosses_end (sample 2 0 0 7) (by decide) 4 0).2
      (by decide) (by decide)⟩

/-! ## Input frames -/

theorem menu_row_up_times_onlyGrid (amount : Nat) : ∀ (s : State),
    OnlyGrid s (menu_row_up_times amount s) := by
  induction amount with
  | zero => intro s; exact rfl
  | succ n ih => intro s; exact onlyGrid_trans (menu_row_up_onlyGrid s) (ih _)

theorem menu_row_down_times_onlyGrid (fuel amount : Nat) : ∀ (s t : State),
    menu_row_down_times fuel amount s = some t → OnlyGrid s t := by
  induction amount with
  | zero =>
    intro s t h
    cases h
    exact rfl
  | succ n ih =>
    intro s t h
    unfold menu_row_down_times at h
    cases hd : menu_row_down fuel s with
    | none => simp [hd] at h
    | some u =>
      simp only [hd, Option.some_bind] at h
      exact onlyGrid_trans (menu_row_down_onlyGrid fuel s u hd) (ih u t h)

/-- Every movement command, past its guard, is a change of the GridPosition
followed by the common tail. -/
theorem command_body_shape (fuel : Nat) (m : MoveStep) (h1 : m ≠ MoveStep.row_up)
    (h2 : m ≠ MoveStep.row_down) (q t : State) (h : apply_step fuel m q = some t) :
    ∃ u, OnlyGrid q u ∧ t = movement_epilogue u := by
  cases m with
  | row_up => exact absurd rfl h1
  | row_down => exact absurd rfl h2
  | up amount =>
    cases h
    exact ⟨_, menu_row_up_times_onlyGrid _ _, rfl⟩
  | down amount =>
    unfold apply_step menu_down_body at h
    dsimp only at h
    rw [Option.map_eq_some'] at h
    obtain ⟨u, hu, rfl⟩ := h
    exact ⟨u, menu_row_down_times_onlyGrid fuel _ _ _ hu, rfl⟩
  | left =>
    unfold apply_step menu_left_body at h
    dsimp only at h
    cases h
    refine ⟨_, ?_, rfl⟩
    split_ifs
    all_goals first
      | exact rfl
      | (refine onlyGrid_trans ?_ (menu_row_up_onlyGrid _); exact rfl)
  | right =>
    unfold apply_step menu_right_body at h
    dsimp only at h
    split_ifs at h
    all_goals
      rw [Option.map_eq_some'] at h
      obtain ⟨u, hu, rfl⟩ := h
      refine ⟨u, ?_, rfl⟩
      first
        | (cases hu; exact rfl)
        | (refine onlyGrid_trans ?_ (menu_row_down_onlyGrid fuel _ u hu); exact rfl)

theorem movement_body_shape (fuel : Nat) (button : control) (m : MoveStep)
    (hm : step_of_button button = some m) (q t : State)
    (h : apply_step fuel m q = some t) :
    ∃ u, OnlyGrid q u ∧ t = movement_epilogue u := by
  refine command_body_shape fuel m ?_ ?_ q t h
  · rintro rfl
    cases button <;> simp [step_of_button] at hm
  · rintro rfl
    cases button <;> simp [step_of_button] at hm

/-- The case of a direction button in `handle_input`: the guard, then the
movement step. -/
theorem dispatch_direction (fuel : Nat) (button : control) (m : MoveStep)
    (hm : step_of_button button = some m) (p : State) :
    dispatch fuel button p =
      if movement_suppressed { p with direction_current := true } then
        some (suppress { p with direction_current := true })
      else apply_step fuel m { p with direction_current := true } := by
  cases button <;> simp only [step_of_button, Option.some.injEq] at hm <;>
    first
    | exact absurd hm (by simp)
    | skip
  all_goals subst hm
  all_goals
    simp only [dispatch, apply_step, menu_left, menu_right, menu_up, menu_down]
    try (split_ifs <;> rfl)

/-- What a change of the GridPosition alone leaves as it was. -/
theorem onlyGrid_fields {s t : State} (h : OnlyGrid s t) :
    t.direction_current = s.direction_current ∧ t.direction_last = s.direction_last ∧
    t.navigate_timeout = s.navigate_timeout ∧ t.list_len = s.list_len ∧
    t.frames_focused = s.frames_focused ∧ t.pos_highlight = s.pos_highlight ∧
    t.anim_highlight = s.anim_highlight ∧ t.anim_large_art_pos = s.anim_large_art_pos ∧
    t.anim_large_art_scale = s.anim_large_art_scale ∧ t.sort_current = s.sort_current := by
  unfold OnlyGrid at h
  have h1 := congrArg State.direction_current h
  have h2 := congrArg State.direction_last h
  have h3 := congrArg State.navigate_timeout h
  have h4 := congrArg State.list_len h
  have h5 := congrArg State.frames_focused h
  have h6 := congrArg State.pos_highlight h
  have h7 := congrArg State.anim_highlight h
  have h8 := congrArg State.anim_large_art_pos h
  have h9 := congrArg State.anim_large_art_scale h
  have h10 := congrArg State.sort_current h
  exact ⟨h1, h2, h3, h4, h5, h6, h7, h8, h9, h10⟩

theorem input_epilogue_onlyGrid (s : State) : OnlyGrid s (input_epilogue s) := by
  unfold input_epilogue
  dsimp only
  split_ifs <;> exact rfl

theorem movement_executes_eq (s : State) :
    movement_executes s = !(s.direction_current && decide (s.navigate_timeout > 0)) := by
  unfold movement_executes movement_suppressed direction_held input_prologue
  simp

/-- One frame of a direction button, when it returns: `direction_current` is
set, `direction_last` is the previous `direction_current`, and the cooldown is
reset when the command got past its guard and decreased by one otherwise. -/
theorem handle_input_direction_frame (fuel : Nat) (button : control) (m : MoveStep)
    (hm : step_of_button button = some m) (s t : State)
    (h : handle_input fuel button s = some t) :
    t.direction_current = true ∧ t.direction_last = s.direction_current ∧
    t.list_len = s.list_len ∧
    t.navigate_timeout =
      (if movement_executes s then INPUT_TIMEOUT else s.navigate_timeout - 1) := by
  unfold handle_input at h
  rw [dispatch_direction fuel button m hm, Option.map_eq_some'] at h
  obtain ⟨u, hu, rfl⟩ := h
  obtain ⟨e1, e2, e3, e4, -⟩ := onlyGrid_fields (input_epilogue_onlyGrid u)
  rw [e1, e2, e3, e4]
  by_cases hg : movement_suppressed { input_prologue s with direction_current := true } = true
  · rw [if_pos hg] at hu
    cases hu
    have hx : movement_executes s = false := by simp [movement_executes, hg]
    rw [hx]
    exact ⟨rfl, rfl, rfl, rfl⟩
  · rw [if_neg hg] at hu
    obtain ⟨v, hv, rfl⟩ := movement_body_shape fuel button m hm _ u hu
    obtain ⟨f1, f2, -, f4, -⟩ := onlyGrid_fields hv
    have hx : movement_executes s = true := by simpa [movement_executes] using hg
    rw [hx]
    exact ⟨f1, f2, f4, rfl⟩

/-- The guard outcomes of a held direction button depend on
`direction_current` and `navigate_timeout` alone. -/
theorem hold_trace_flags (fuel : Nat) (button : control) (m : MoveStep)
    (hm : step_of_button button = some m) (frames : Nat) :
    ∀ (s : State) (r : List Bool × State), hold_trace fuel button frames s = some r →
      r.1 = gate_trace frames s.direction_current s.navigate_timeout := by
  induction frames with
  | zero =>
    intro s r h
    cases h
    rfl
  | succ n ih =>
    intro s r h
    unfold hold_trace at h
    cases h1 : handle_input fuel button s with
    | none => simp [h1] at h
    | some s1 =>
      simp only [h1, Option.some_bind, Option.map_eq_some'] at h
      obtain ⟨r1, hr1, rfl⟩ := h
      obtain ⟨a1, -, -, a4⟩ := handle_input_direction_frame fuel button m hm s s1 h1
      have := ih s1 r1 hr1
      rw [a1, a4] at this
      simp only [gate_trace, this, movement_executes_eq]

/-- From a valid, page-aligned position one frame of a direction button
returns a valid, page-aligned position. -/
theorem handle_input_direction_valid (fuel : Nat) (hf : 3 ≤ fuel) (button : control)
    (m : MoveStep) (hm : step_of_button button = some m) (s : State)
    (h : GridValid s ∧ PageAligned s) :
    ∃ t, handle_input fuel button s = some t ∧ GridValid t ∧ PageAligned t := by
  have hin : ∀ u : State, GridValid u ∧ PageAligned u →
      GridValid (input_epilogue u) ∧ PageAligned (input_epilogue u) := by
    intro u hu
    unfold GridValid PageAligned current_selected COLUMNS ROWS at *
    unfold input_epilogue
    dsimp only
    split_ifs <;> (try dsimp only at *) <;> omega
  unfold handle_input
  rw [dispatch_direction fuel button m hm]
  by_cases hg : movement_suppressed { input_prologue s with direction_current := true } = true
  · rw [if_pos hg]
    exact ⟨_, rfl, hin _ h⟩
  · rw [if_neg hg]
    obtain ⟨t, ht, t1, -⟩ :=
      apply_step_valid fuel hf m { input_prologue s with direction_current := true } h
    refine ⟨input_epilogue t, ?_, hin t t1⟩
    rw [ht]
    rfl

theorem hold_trace_returns (fuel : Nat) (hf : 3 ≤ fuel) (button : control)
    (m : MoveStep) (hm : step_of_button button = some m) (frames : Nat) :
    ∀ (s : State), GridValid s ∧ PageAligned s →
      ∃ r, hold_trace fuel button frames s = some r := by
  induction frames with
  | zero => intro s _; exact ⟨_, rfl⟩
  | succ n ih =>
    intro s h
    obtain ⟨t, ht, t1⟩ := handle_input_direction_valid fuel hf button m hm s h
    obtain ⟨r, hr⟩ := ih t t1
    refine ⟨(movement_executes s :: r.1, r.2), ?_⟩
    simp [hold_trace, ht, hr]

/-- C6 (debounce of a held direction). Let the frame before the press carry
no direction input, and pass one direction button to `handle_input` for 15
consecutive frames, whatever `navigate_timeout` is at the start. Whenever the
15 frames return, the movement command gets past its guard on the first frame
and on the twelfth, and on no other: exactly 2 executions. From a valid,
page-aligned position the 15 frames do return (three passes of the pull-back
loop per row step being enough). -/
theorem held_direction_executes_twice (s : State) (button : control)
    (hb : is_direction button = true) (hdc : s.direction_current = false) (fuel : Nat) :
    (∀ r, hold_trace fuel button 15 s = some r →
      r.1 = [true, false, false, false, false, false, false, false, false, false, false,
             true, false, false, false] ∧ r.1.count true = 2) ∧
    (3 ≤ fuel → GridValid s → PageAligned s →
      ∃ t, hold_trace fuel button 15 s =
        some ([true, false, false, false, false, false, false, false, false, false, false,
               true, false, false, false], t)) := by
  obtain ⟨m, hm⟩ : ∃ m, step_of_button button = some m := by
    cases button <;> simp [is_direction] at hb <;> exact ⟨_, rfl⟩
  have key : ∀ r, hold_trace fuel button 15 s = some r →
      r.1 = [true, false, false, false, false, false, false, false, false, false, false,
             true, false, false, false] := by
    intro r hr
    rw [hold_trace_flags fuel button m hm 15 s r hr, hdc]
    simp [gate_trace, INPUT_TIMEOUT]
  refine ⟨fun r hr => ?_, fun hf hv ha => ?_⟩
  · have := key r hr
    rw [this]
    exact ⟨rfl, by decide⟩
  · obtain ⟨r, hr⟩ := hold_trace_returns fuel hf button m hm 15 s ⟨hv, ha⟩
    refine ⟨r.2, ?_⟩
    rw [hr, ← key r hr]

/-- Witness of C6: DOWN held for 15 frames over a list of 7 items, from the
state left by `setup`. -/
theorem held_direction_executes_twice_witness :
    is_direction control.DOWN = true ∧ (sample 0 0 0 7).direction_current = false ∧
    ∃ t, hold_trace 3 control.DOWN 15 (sample 0 0 0 7) =
      some ([true, false, false, false, false, false, false, false, false, false, false,
             true, false, false, false], t) :=
  ⟨by decide, by decide,
    (held_direction_executes_twice (sample 0 0 0 7) control.DOWN (by decide) (by decide) 3).2
      (by decide) (by decide) (by decide)⟩

/-! ## The guard of the other commands -/

/-- C7 as amended (gate of the non-movement commands). `menu_swap_sort`,
`menu_cycle_ui` and `menu_theme_cycle` look at the cooldown alone: in every
state with `navigate_timeout > 0`, whatever `direction_last` and
`direction_current` are, each of them only decreases `navigate_timeout` by
one; in every state with `navigate_timeout <= 0` each of them executes (the
sort mode steps and the cursor goes to the origin, `ui_cycle_next` is called,
the theme steps and `GRID_3_init` is called) and resets `navigate_timeout` to
`INPUT_TIMEOUT = 10`. -/
theorem non_movement_gate (s : State) :
    (0 < s.navigate_timeout →
      menu_swap_sort s = { s with navigate_timeout := s.navigate_timeout - 1 } ∧
      menu_cycle_ui s = { s with navigate_timeout := s.navigate_timeout - 1 } ∧
      menu_theme_cycle s = { s with navigate_timeout := s.navigate_timeout - 1 }) ∧
    (s.navigate_timeout ≤ 0 →
      ((menu_swap_sort s).sort_current =
          (if s.sort_current + 1 = SORT_END then DEFAULT else s.sort_current + 1) ∧
        AtOrigin (menu_swap_sort s) ∧ (menu_swap_sort s).navigate_timeout = 10) ∧
      ((menu_cycle_ui s).ui_cycle_next_calls = s.ui_cycle_next_calls + 1 ∧
        (menu_cycle_ui s).navigate_timeout = 10) ∧
      ((menu_theme_cycle s).theme_current =
          (if s.theme_current + 1 = THEME_END then 0 else s.theme_current + 1) ∧
        (menu_theme_cycle s).init_calls = s.init_calls + 1 ∧
        (menu_theme_cycle s).navigate_timeout = 10)) := by
  constructor
  · intro h
    have hs : command_suppressed s = true := by simp [command_suppressed, h]
    simp [menu_swap_sort, menu_cycle_ui, menu_theme_cycle, hs, suppress]
  · intro h
    have hs : command_suppressed s = false := by
      simp only [command_suppressed, decide_eq_false_iff_not]
      omega
    unfold menu_swap_sort menu_cycle_ui menu_theme_cycle AtOrigin
    simp only [hs, Bool.false_eq_true, if_false]
    refine ⟨⟨?_, ?_, ?_⟩, ⟨?_, ?_⟩, ⟨?_, ?_, ?_⟩⟩
    all_goals (try split_ifs) <;> first | rfl | trivial

/-- Witness of C7 as amended: START with the cooldown at 10 and with the
cooldown at 0. -/
theorem non_movement_gate_witness :
    (0 < (sample 0 0 0 7).navigate_timeout ∧
      menu_swap_sort (sample 0 0 0 7) =
        { sample 0 0 0 7 with navigate_timeout := (sample 0 0 0 7).navigate_timeout - 1 }) ∧
    (({ sample 2 1 3 20 with navigate_timeout := 0 } : State).navigate_timeout ≤ 0 ∧
      (menu_swap_sort { sample 2 1 3 20 with navigate_timeout := 0 }).navigate_timeout = 10) :=
  ⟨⟨by decide, ((non_movement_gate (sample 0 0 0 7)).1 (by decide)).1⟩,
    ⟨by decide,
      ((non_movement_gate { sample 2 1 3 20 with navigate_timeout := 0 }).2
        (by decide)).1.2.2⟩⟩

/-- Counterexample to C7 as stated: in the state left by `setup` no direction
is held (`direction_held` is false) and the cooldown is 10, yet
`menu_swap_sort`, `menu_cycle_ui` and `menu_theme_cycle` are suppressed: the
sort mode, the call count of `ui_cycle_next` and the theme stay as they were
and `navigate_timeout` becomes 9, not 10; the same through `handle_input`
with START. -/
theorem non_movement_gate_counterexample :
    direction_held (sample 0 0 0 7) = false ∧ (sample 0 0 0 7).navigate_timeout = 10 ∧
    (menu_swap_sort (sample 0 0 0 7)).sort_current = (sample 0 0 0 7).sort_current ∧
    (menu_swap_sort (sample 0 0 0 7)).navigate_timeout = 9 ∧
    (menu_cycle_ui (sample 0 0 0 7)).ui_cycle_next_calls =
      (sample 0 0 0 7).ui_cycle_next_calls ∧
    (menu_cycle_ui (sample 0 0 0 7)).navigate_timeout = 9 ∧
    (menu_theme_cycle (sample 0 0 0 7)).theme_current = (sample 0 0 0 7).theme_current ∧
    (menu_theme_cycle (sample 0 0 0 7)).navigate_timeout = 9 ∧
    (handle_input 0 control.START (sample 0 0 0 7)).map
      (fun t => (t.sort_current, t.navigate_timeout)) = some (DEFAULT, 9) := by
  decide

/-! ## Suppressed movement commands -/

/-- C8 (a suppressed movement command changes the cooldown alone). When
`direction_held` is true and `navigate_timeout > 0`, each of `menu_up`,
`menu_down`, `menu_left` and `menu_right` returns the state it was given with
`navigate_timeout` decreased by exactly 1: the row, the column, the page
start, `frames_focused`, the highlight animation and both large-art
animations are as before. -/
theorem suppressed_movement_changes_cooldown_only (s : State)
    (hheld : direction_held s = true) (hto : 0 < s.navigate_timeout) (fuel amount : Nat) :
    menu_up amount s = { s with navigate_timeout := s.navigate_timeout - 1 } ∧
    menu_down fuel amount s = some { s with navigate_timeout := s.navigate_timeout - 1 } ∧
    menu_left s = { s with navigate_timeout := s.navigate_timeout - 1 } ∧
    menu_right fuel s = some { s with navigate_timeout := s.navigate_timeout - 1 } ∧
    ∀ t, (t = menu_up amount s ∨ some t = menu_down fuel amount s ∨ t = menu_left s ∨
        some t = menu_right fuel s) →
      t.navigate_timeout = s.navigate_timeout - 1 ∧
      t.screen_row = s.screen_row ∧ t.screen_column = s.screen_column ∧
      t.current_starting_index = s.current_starting_index ∧
      t.frames_focused = s.frames_focused ∧ t.anim_highlight = s.anim_highlight ∧
      t.anim_large_art_pos = s.anim_large_art_pos ∧
      t.anim_large_art_scale = s.anim_large_art_scale := by
  have hs : movement_suppressed s = true := by
    simp [movement_suppressed, hheld, hto]
  have e1 : menu_up amount s = { s with navigate_timeout := s.navigate_timeout - 1 } := by
    simp [menu_up, hs, suppress]
  have e2 : menu_down fuel amount s =
      some { s with navigate_timeout := s.navigate_timeout - 1 } := by
    simp [menu_down, hs, suppress]
  have e3 : menu_left s = { s with navigate_timeout := s.navigate_timeout - 1 } := by
    simp [menu_left, hs, suppress]
  have e4 : menu_right fuel s =
      some { s with navigate_timeout := s.navigate_timeout - 1 } := by
    simp [menu_right, hs, suppress]
  refine ⟨e1, e2, e3, e4, ?_⟩
  intro t ht
  have : t = { s with navigate_timeout := s.navigate_timeout - 1 } := by
    rcases ht with h | h | h | h
    · rw [h, e1]
    · rw [e2] at h
      exact Option.some.inj h
    · rw [h, e3]
    · rw [e4] at h
      exact Option.some.inj h
  subst this
  exact ⟨rfl, rfl, rfl, rfl, rfl, rfl, rfl, rfl⟩

/-- Witness of C8: a direction held on two consecutive frames with the
cooldown at 4, the cursor on row 1, column 2 of a list of 20 items. -/
theorem suppressed_movement_changes_cooldown_only_witness :
    direction_held
      { sample 1 2 0 20 with direction_last := true, direction_current := true,
                             navigate_timeout := 4 } = true ∧
    menu_left
      { sample 1 2 0 20 with direction_last := true, direction_current := true,
                             navigate_timeout := 4 } =
      { sample 1 2 0 20 with direction_last := true, direction_current := true,
                             navigate_timeout := 3 } ∧
    menu_down 3 1
      { sample 1 2 0 20 with direction_last := true, direction_current := true,
                             navigate_timeout := 4 } =
      some { sample 1 2 0 20 with direction_last := true, direction_current := true,
                                  navigate_timeout := 3 } :=
  ⟨by decide,
    (suppressed_movement_changes_cooldown_only _ (by decide) (by decide) 3 1).2.2.1,
    (suppressed_movement_changes_cooldown_only _ (by decide) (by decide) 3 1).2.1⟩

/-! ## Sort cycling -/

/-- An executed `menu_swap_sort` on one of the four sort modes. -/
theorem menu_swap_sort_executed (s : State) (hexec : s.navigate_timeout ≤ 0)
    (hsort : s.sort_current < SORT_END) :
    (menu_swap_sort s).sort_current = (s.sort_current + 1) % SORT_END ∧
    AtOrigin (menu_swap_sort s) := by
  have hs : command_suppressed s = false := by
    simp only [command_suppressed, decide_eq_false_iff_not]
    omega
  unfold menu_swap_sort AtOrigin
  unfold SORT_END at *
  simp only [hs, Bool.false_eq_true, if_false, DEFAULT]
  constructor
  · split_ifs <;> dsimp only at * <;> omega
  · exact ⟨trivial, trivial, trivial⟩

/-- C9 (sort cycling). Every executed `menu_swap_sort` (one entered with
`navigate_timeout <= 0`) on one of the four sort modes moves `sort_current`
to its cyclic successor, DEFAULT to ALPHA to DATE to PRODUCT to DEFAULT, and
puts the GridPosition at the origin whatever it was; four executed calls, the
sort mode being left alone in between, restore the original mode. -/
theorem sort_cycle (s : State) (hexec : s.navigate_timeout ≤ 0)
    (hsort : s.sort_current < SORT_END) :
    (s.sort_current = DEFAULT → (menu_swap_sort s).sort_current = ALPHA) ∧
    (s.sort_current = ALPHA → (menu_swap_sort s).sort_current = DATE) ∧
    (s.sort_current = DATE → (menu_swap_sort s).sort_current = PRODUCT) ∧
    (s.sort_current = PRODUCT → (menu_swap_sort s).sort_current = DEFAULT) ∧
    (menu_swap_sort s).screen_row = 0 ∧ (menu_swap_sort s).screen_column = 0 ∧
    (menu_swap_sort s).current_starting_index = 0 ∧
    ∀ s2 s3 s4 : State,
      s2.navigate_timeout ≤ 0 → s3.navigate_timeout ≤ 0 → s4.navigate_timeout ≤ 0 →
      s2.sort_current = (menu_swap_sort s).sort_current →
      s3.sort_current = (menu_swap_sort s2).sort_current →
      s4.sort_current = (menu_swap_sort s3).sort_current →
      (menu_swap_sort s4).sort_current = s.sort_current := by
  obtain ⟨h1, h2⟩ := menu_swap_sort_executed s hexec hsort
  have hE : SORT_END = 4 := rfl
  rw [hE] at h1 hsort
  refine ⟨?_, ?_, ?_, ?_, h2.1, h2.2.1, h2.2.2, ?_⟩
  · intro h; rw [h1, h]; rfl
  · intro h; rw [h1, h]; rfl
  · intro h; rw [h1, h]; rfl
  · intro h; rw [h1, h]; rfl
  · intro s2 s3 s4 e2 e3 e4 c2 c3 c4
    have b2 := (menu_swap_sort_executed s2 e2 (by rw [c2, h1, hE]; omega)).1
    rw [hE] at b2
    have b3 := (menu_swap_sort_executed s3 e3 (by rw [c3, b2, hE]; omega)).1
    rw [hE] at b3
    have b4 := (menu_swap_sort_executed s4 e4 (by rw [c4, b3, hE]; omega)).1
    rw [hE] at b4
    omega

/-- Witness of C9: the sort mode PRODUCT with the cursor on row 2, column 1
of the page starting at 3, the cooldown at 0. -/
theorem sort_cycle_witness :
    ({ sample 2 1 3 20 with navigate_timeout := 0, sort_current := PRODUCT } :
      State).navigate_timeout ≤ 0 ∧
    ({ sample 2 1 3 20 with navigate_timeout := 0, sort_current := PRODUCT } :
      State).sort_current < SORT_END ∧
    (menu_swap_sort
      { sample 2 1 3 20 with navigate_timeout := 0, sort_current := PRODUCT }).sort_current
      = DEFAULT ∧
    (menu_swap_sort
      { sample 2 1 3 20 with navigate_timeout := 0, sort_current := PRODUCT }).screen_row
      = 0 :=
  ⟨by decide, by decide,
    (sort_cycle { sample 2 1 3 20 with navigate_timeout := 0, sort_current := PRODUCT }
      (by decide) (by decide)).2.2.2.1 rfl,
    (sort_cycle { sample 2 1 3 20 with navigate_timeout := 0, sort_current := PRODUCT }
      (by decide) (by decide)).2.2.2.2.1⟩

/-! ## Highlight retargeting -/

/-- The common tail of the movement commands retargets the highlight
animation. -/
theorem movement_epilogue_retargets (s u : State) (h : OnlyGrid s u) :
    HighlightRetargeted s (movement_epilogue u) := by
  obtain ⟨-, -, -, -, -, h6, h7, -⟩ := onlyGrid_fields h
  unfold HighlightRetargeted movement_epilogue kill_large_art_animation
    setup_highlight_animation
  dsimp only
  rw [h6, h7]
  refine ⟨?_, rfl, rfl, rfl, rfl⟩
  cases anim_active s.anim_highlight.time <;> rfl

theorem accepted_step_retargets (fuel : Nat) (m : MoveStep) (h1 : m ≠ MoveStep.row_up)
    (h2 : m ≠ MoveStep.row_down) (s t : State) (h : apply_step fuel m s = some t) :
    HighlightRetargeted s t := by
  obtain ⟨u, hu, rfl⟩ := command_body_shape fuel m h1 h2 s t h
  exact movement_epilogue_retargets s u hu

/-- C10 (highlight retargeting). After every accepted movement command
(`menu_up`, `menu_down`, `menu_left`, `menu_right` entered with the guard
open) the highlight animation starts at its own `cur` of before the call when
it was active then, and at `pos_highlight` otherwise; it ends at
`(HIGHLIGHT_X_POS(screen_column), HIGHLIGHT_Y_POS(screen_row))` of the new row
and column, with `frame_now = 0`, `frame_len = 15` and `active = true`.
`menu_up` and `menu_left` always return; `menu_down` and `menu_right` return
from every valid, page-aligned position. -/
theorem highlight_retargeted (s : State) (hgate : movement_suppressed s = false)
    (fuel amount : Nat) :
    HighlightRetargeted s (menu_up amount s) ∧ HighlightRetargeted s (menu_left s) ∧
    (∀ t, menu_down fuel amount s = some t → HighlightRetargeted s t) ∧
    (∀ t, menu_right fuel s = some t → HighlightRetargeted s t) ∧
    (3 ≤ fuel → GridValid s → PageAligned s →
      (∃ t, menu_down fuel amount s = some t ∧ HighlightRetargeted s t) ∧
      (∃ t, menu_right fuel s = some t ∧ HighlightRetargeted s t)) := by
  have eu : menu_up amount s = menu_up_body amount s := by simp [menu_up, hgate]
  have el : menu_left s = menu_left_body s := by simp [menu_left, hgate]
  have ed : menu_down fuel amount s = apply_step fuel (MoveStep.down amount) s := by
    simp [menu_down, hgate, apply_step]
  have er : menu_right fuel s = apply_step fuel MoveStep.right s := by
    simp [menu_right, hgate, apply_step]
  have hd : ∀ t, menu_down fuel amount s = some t → HighlightRetargeted s t := by
    intro t ht
    rw [ed] at ht
    exact accepted_step_retargets fuel _ (by simp) (by simp) s t ht
  have hr : ∀ t, menu_right fuel s = some t → HighlightRetargeted s t := by
    intro t ht
    rw [er] at ht
    exact accepted_step_retargets fuel _ (by simp) (by simp) s t ht
  refine ⟨?_, ?_, hd, hr, ?_⟩
  · rw [eu]
    exact accepted_step_retargets fuel (MoveStep.up amount) (by simp) (by simp) s _ rfl
  · rw [el]
    exact accepted_step_retargets fuel MoveStep.left (by simp) (by simp) s _ rfl
  · intro hf hv ha
    obtain ⟨t1, ht1, -⟩ := apply_step_valid fuel hf (MoveStep.down amount) s ⟨hv, ha⟩
    obtain ⟨t2, ht2, -⟩ := apply_step_valid fuel hf MoveStep.right s ⟨hv, ha⟩
    rw [← ed] at ht1
    rw [← er] at ht2
    exact ⟨⟨t1, ht1, hd t1 ht1⟩, ⟨t2, ht2, hr t2 ht2⟩⟩

/-- Witness of C10: DOWN accepted on row 0, column 1 of a list of 20 items
while the highlight animation is in flight at `(100, 50)`: the animation
restarts from `(100, 50)` towards the tile of row 1, column 1, at
`(256, 176)`. -/
theorem highlight_retargeted_witness :
    movement_suppressed (sample_in_flight 0 1 0 20) = false ∧
    (∃ t, menu_down 3 1 (sample_in_flight 0 1 0 20) = some t ∧
      HighlightRetargeted (sample_in_flight 0 1 0 20) t) ∧
    (menu_down 3 1 (sample_in_flight 0 1 0 20)).map
        (fun t => (t.anim_highlight.start, t.anim_highlight.end_, t.anim_highlight.time)) =
      some (({ x := 100, y := 50 } : vec2d), ({ x := 256, y := 176 } : vec2d),
        ({ frame_now := 0, frame_len := 15, active := true } : anim1d)) :=
  ⟨by decide,
    ((highlight_retargeted (sample_in_flight 0 1 0 20) (by decide) 3 1).2.2.2.2
      (by decide) (by decide) (by decide)).1,
    by decide⟩

/-! ## Cancel-on-navigate -/

theorem accepted_step_cancels_preview (fuel : Nat) (m : MoveStep) (h1 : m ≠ MoveStep.row_up)
    (h2 : m ≠ MoveStep.row_down) (s t : State) (h : apply_step fuel m s = some t) :
    PreviewCancelled t := by
  obtain ⟨u, -, rfl⟩ := command_body_shape fuel m h1 h2 s t h
  exact ⟨rfl, rfl⟩

/-- C11 (cancel-on-navigate). After every accepted movement command
(`menu_up`, `menu_down`, `menu_left`, `menu_right` entered with the guard
open) both large-art preview animations have `active = false`, whatever they
were before the call. `menu_up` and `menu_left` always return; `menu_down`
and `menu_right` return from every valid, page-aligned position. -/
theorem cancel_on_navigate (s : State) (hgate : movement_suppressed s = false)
    (fuel amount : Nat) :
    PreviewCancelled (menu_up amount s) ∧ PreviewCancelled (menu_left s) ∧
    (∀ t, menu_down fuel amount s = some t → PreviewCancelled t) ∧
    (∀ t, menu_right fuel s = some t → PreviewCancelled t) ∧
    (3 ≤ fuel → GridValid s → PageAligned s →
      (∃ t, menu_down fuel amount s = some t ∧ PreviewCancelled t) ∧
      (∃ t, menu_right fuel s = some t ∧ PreviewCancelled t)) := by
  have eu : menu_up amount s = menu_up_body amount s := by simp [menu_up, hgate]
  have el : menu_left s = menu_left_body s := by simp [menu_left, hgate]
  have ed : menu_down fuel amount s = apply_step fuel (MoveStep.down amount) s := by
    simp [menu_down, hgate, apply_step]
  have er : menu_right fuel s = apply_step fuel MoveStep.right s := by
    simp [menu_right, hgate, apply_step]
  have hd : ∀ t, menu_down fuel amount s = some t → PreviewCancelled t := by
    intro t ht
    rw [ed] at ht
    exact accepted_step_cancels_preview fuel _ (by simp) (by simp) s t ht
  have hr : ∀ t, menu_right fuel s = some t → PreviewCancelled t := by
    intro t ht
    rw [er] at ht
    exact accepted_step_cancels_preview fuel _ (by simp) (by simp) s t ht
  refine ⟨?_, ?_, hd, hr, ?_⟩
  · rw [eu]
    exact accepted_step_cancels_preview fuel (MoveStep.up amount) (by simp) (by simp) s _ rfl
  · rw [el]
    exact accepted_step_cancels_preview fuel MoveStep.left (by simp) (by simp) s _ rfl
  · intro hf hv ha
    obtain ⟨t1, ht1, -⟩ := apply_step_valid fuel hf (MoveStep.down amount) s ⟨hv, ha⟩
    obtain ⟨t2, ht2, -⟩ := apply_step_valid fuel hf MoveStep.right s ⟨hv, ha⟩
    rw [← ed] at ht1
    rw [← er] at ht2
    exact ⟨⟨t1, ht1, hd t1 ht1⟩, ⟨t2, ht2, hr t2 ht2⟩⟩

/-- Witness of C11: the preview fully shown (frame 30 of 30, trigger held) on
row 1, column 1 of a list of 20 items; LEFT and DOWN accepted. -/
theorem cancel_on_navigate_witness :
    movement_suppressed (sample_preview 30 true) = false ∧
    (sample_preview 30 true).anim_large_art_scale.time.active = true ∧
    PreviewCancelled (menu_left (sample_preview 30 true)) ∧
    (∃ t, menu_down 3 1 (sample_preview 30 true) = some t ∧ PreviewCancelled t) :=
  ⟨by decide, by decide,
    (cancel_on_navigate (sample_preview 30 true) (by decide) 3 1).2.1,
    ((cancel_on_navigate (sample_preview 30 true) (by decide) 3 1).2.2.2.2
      (by decide) (by decide) (by decide)).1⟩

/-! ## The exact boundary of the page advance -/

/-- C16 (two-phase correction at the exact boundary). From a valid position
on the last row with `current_selected() + COLUMNS == list_len`, the row step
of `menu_row_down` keeps the page advance (the page start grows by exactly
`COLUMNS`, the overshoot test being strict) and selects index `list_len`; the
pull-back loop then ends, after one pass, on index `list_len - 1`: one
column to the left, or on column `COLUMNS - 1` of the row above when the
column was 0. -/
theorem exact_boundary_two_phase (s : State) (hv : GridValid s)
    (hrow : s.screen_row = ROWS - 1) (hb : current_selected s + COLUMNS = s.list_len)
    (fuel : Nat) (hf : 1 ≤ fuel) :
    (menu_row_down_page_step s).current_starting_index =
      s.current_starting_index + COLUMNS ∧
    current_selected (menu_row_down_page_step s) = s.list_len ∧
    ∃ t, menu_row_down fuel s = some t ∧
      t.current_starting_index = s.current_starting_index + COLUMNS ∧
      current_selected t = s.list_len - 1 ∧
      (0 < s.screen_column →
        t.screen_column = s.screen_column - 1 ∧ t.screen_row = s.screen_row) ∧
      (s.screen_column = 0 →
        t.screen_column = COLUMNS - 1 ∧ t.screen_row = s.screen_row - 1) := by
  have hp := page_step_valid s hv
  dsimp only at hp
  obtain ⟨p1, p2, p3, p4, p5⟩ := hp
  have hC : COLUMNS = 3 := rfl
  have hR : ROWS = 3 := rfl
  have hnot : ¬ s.screen_row + 1 < ROWS := by omega
  have hno : ¬ current_selected s + COLUMNS > s.list_len := by omega
  rw [if_neg hnot, if_neg hno] at p5
  obtain ⟨v1, v2, v3, v4, v5, v6, v7⟩ := hv
  have hsel0 : current_selected s =
      s.current_starting_index + s.screen_row * 3 + s.screen_column := rfl
  have hsel : current_selected (menu_row_down_page_step s) =
      (menu_row_down_page_step s).current_starting_index +
        (menu_row_down_page_step s).screen_row * 3 +
        (menu_row_down_page_step s).screen_column := rfl
  rw [hC] at p5 hb v4 ⊢
  rw [hR] at hrow v2 p4
  have hloop := loop_in_page 1 (menu_row_down_page_step s) fuel hf p3 (by omega)
    (by rw [hC]; omega) (by omega) (by omega)
  obtain ⟨t, ht, t1, t2, t3, t4, t5, t6, t7⟩ := hloop
  have htsel : current_selected t =
      t.current_starting_index + t.screen_row * 3 + t.screen_column := rfl
  rw [hC] at t6
  refine ⟨p5.1, by omega, t, ht, by omega, by omega, ?_, ?_⟩
  · intro hc
    omega
  · intro hc
    omega

/-- Witness of C16: row 2, column 0 of page 0 with 9 items: index 6 selected,
`6 + 3 = 9`; the page start becomes 3 and the cursor lands on row 1, column 2,
index 8. -/
theorem exact_boundary_two_phase_witness :
    GridValid (sample 2 0 0 9) ∧ (sample 2 0 0 9).screen_row = ROWS - 1 ∧
    current_selected (sample 2 0 0 9) + COLUMNS = (sample 2 0 0 9).list_len ∧
    (menu_row_down 1 (sample 2 0 0 9)).map grid = some (1, 2, 3) ∧
    ((menu_row_down_page_step (sample 2 0 0 9)).current_starting_index =
        (sample 2 0 0 9).current_starting_index + COLUMNS ∧
      current_selected (menu_row_down_page_step (sample 2 0 0 9)) =
        (sample 2 0 0 9).list_len ∧
      ∃ t, menu_row_down 1 (sample 2 0 0 9) = some t ∧
        t.current_starting_index = (sample 2 0 0 9).current_starting_index + COLUMNS ∧
        current_selected t = (sample 2 0 0 9).list_len - 1 ∧
        (0 < (sample 2 0 0 9).screen_column →
          t.screen_column = (sample 2 0 0 9).screen_column - 1 ∧
            t.screen_row = (sample 2 0 0 9).screen_row) ∧
        ((sample 2 0 0 9).screen_column = 0 →
          t.screen_column = COLUMNS - 1 ∧ t.screen_row = (sample 2 0 0 9).screen_row - 1)) :=
  ⟨by decide, by decide, by decide, by decide,
    exact_boundary_two_phase (sample 2 0 0 9) (by decide) (by decide) (by decide) 1
      (by decide)⟩

/-! ## Left and right, one item at a time -/

/-- C19 (left and right walk the list one item at a time). From a valid,
page-aligned position, `menu_right` with its guard open returns; it raises
`current_selected()` by exactly 1 when the selected item is not the last one,
and the part of `menu_left` after the guard then brings the selected index
back. `menu_left` with its guard open lowers `current_selected()` by exactly 1
when it is positive and leaves the GridPosition as it was when it is 0. -/
theorem left_right_walk (s : State) (hv : GridValid s) (ha : PageAligned s)
    (hgate : movement_suppressed s = false) (fuel : Nat) :
    (∃ t, menu_right fuel s = some t ∧
      (current_selected s < s.list_len - 1 →
        current_selected t = current_selected s + 1 ∧
        current_selected (menu_left_body t) = current_selected s)) ∧
    (0 < current_selected s → current_selected (menu_left s) = current_selected s - 1) ∧
    (current_selected s = 0 → SameGrid s (menu_left s)) := by
  have el : menu_left s = menu_left_body s := by simp [menu_left, hgate]
  have er : menu_right fuel s = menu_right_body fuel s := by simp [menu_right, hgate]
  obtain ⟨-, -, -, l4, l5⟩ := menu_left_body_valid s hv ha
  obtain ⟨t, ht, t1, t2, t3, t4, -⟩ := menu_right_body_valid s hv fuel
  refine ⟨⟨t, by rw [er]; exact ht, ?_⟩, by rw [el]; exact l4, by rw [el]; exact l5⟩
  intro hlt
  have h1 := t4 hlt
  obtain ⟨-, -, -, m4, -⟩ := menu_left_body_valid t t1 (t3 ha)
  have hpos : 0 < current_selected t := by
    have := hv.2.2.2.2.2.1
    omega
  refine ⟨h1, ?_⟩
  rw [m4 hpos, h1]
  omega

/-- Witness of C19: index 8 (row 2, column 2 of page 0) of 20 items: right
selects index 9 on the next page, left selects index 8 again. -/
theorem left_right_walk_witness :
    GridValid (sample 2 2 0 20) ∧ PageAligned (sample 2 2 0 20) ∧
    movement_suppressed (sample 2 2 0 20) = false ∧
    (∃ t, menu_right 0 (sample 2 2 0 20) = some t ∧
      (current_selected (sample 2 2 0 20) < (sample 2 2 0 20).list_len - 1 →
        current_selected t = current_selected (sample 2 2 0 20) + 1 ∧
        current_selected (menu_left_body t) = current_selected (sample 2 2 0 20))) ∧
    current_selected (menu_left (sample 2 2 0 20)) = 7 :=
  ⟨by decide, by decide, by decide,
    (left_right_walk (sample 2 2 0 20) (by decide) (by decide) (by decide) 0).1,
    (left_right_walk (sample 2 2 0 20) (by decide) (by decide) (by decide) 0).2.1
      (by decide)⟩

/-! ## Termination of the pull-back loop -/

/-- One pass of the pull-back loop from a position inside the grid on an
aligned page, with a positive selected index: the index goes down by one, and
the position stays inside the grid on an aligned page. -/
theorem loop_body_aligned (s : State) (hr : 0 ≤ s.screen_row) (hc0 : 0 ≤ s.screen_column)
    (hc : s.screen_column < COLUMNS) (hp : 0 ≤ s.current_starting_index)
    (ha : PageAligned s) (hsel : 0 < current_selected s) :
    let t := menu_row_down_loop_body s
    t.list_len = s.list_len ∧ 0 ≤ t.screen_row ∧ t.screen_row ≤ s.screen_row ∧
    0 ≤ t.screen_column ∧ t.screen_column < COLUMNS ∧
    0 ≤ t.current_starting_index ∧ PageAligned t ∧
    current_selected t = current_selected s - 1 := by
  unfold PageAligned current_selected COLUMNS at *
  unfold menu_row_down_loop_body menu_row_up COLUMNS
  dsimp only
  split_ifs <;> (try dsimp only at *) <;> omega

/-- The pull-back loop over a list of at least one item, entered inside the
grid on an aligned page, ends after at most `k` passes when the selection is
at most `k` past the last item. -/
theorem loop_terminates (k : Nat) : ∀ (s : State) (fuel : Nat), k ≤ fuel →
    1 ≤ s.list_len → 0 ≤ s.screen_row → 0 ≤ s.screen_column → s.screen_column < COLUMNS →
    0 ≤ s.current_starting_index → PageAligned s →
    current_selected s - (s.list_len - 1) ≤ k →
    ∃ t, menu_row_down_loop fuel s = some t ∧ t.list_len = s.list_len ∧
      0 ≤ t.screen_row ∧ t.screen_row ≤ s.screen_row ∧
      0 ≤ t.screen_column ∧ t.screen_column < COLUMNS ∧
      0 ≤ t.current_starting_index ∧ PageAligned t ∧
      0 ≤ current_selected t ∧ current_selected t < t.list_len := by
  induction k with
  | zero =>
    intro s fuel _ hl hr hc0 hc hp ha hk
    refine ⟨s, loop_noop fuel s (by omega), rfl, hr, le_refl _, hc0, hc, hp, ha, ?_, by omega⟩
    unfold current_selected COLUMNS
    omega
  | succ k ih =>
    intro s fuel hf hl hr hc0 hc hp ha hk
    by_cases hge : current_selected s ≥ s.list_len
    · obtain ⟨f, rfl⟩ : ∃ f, fuel = f + 1 := ⟨fuel - 1, by omega⟩
      have hb := loop_body_aligned s hr hc0 hc hp ha (by omega)
      dsimp only at hb
      obtain ⟨b1, b2, b3, b4, b5, b6, b7, b8⟩ := hb
      obtain ⟨t, ht, t1, t2, t3, t4, t5, t6, t7, t8, t9⟩ :=
        ih (menu_row_down_loop_body s) f (by omega) (by omega) b2 b4 b5 b6 b7 (by omega)
      refine ⟨t, ?_, by omega, t2, by omega, t4, t5, t6, t7, t8, t9⟩
      simp [menu_row_down_loop, hge, ht]
    · refine ⟨s, loop_noop fuel s (by omega), rfl, hr, le_refl _, hc0, hc, hp, ha, ?_,
        by omega⟩
      unfold current_selected COLUMNS
      omega

/-- The row step before the loop keeps a position inside the grid on an
aligned page. -/
theorem page_step_aligned (s : State) (hr : 0 ≤ s.screen_row) (hr2 : s.screen_row < ROWS)
    (hc0 : 0 ≤ s.screen_column) (hc : s.screen_column < COLUMNS)
    (hp : 0 ≤ s.current_starting_index) (ha : PageAligned s) :
    let p := menu_row_down_page_step s
    p.list_len = s.list_len ∧ 0 ≤ p.screen_row ∧ p.screen_row < ROWS ∧
    0 ≤ p.screen_column ∧ p.screen_column < COLUMNS ∧
    0 ≤ p.current_starting_index ∧ PageAligned p := by
  unfold PageAligned COLUMNS ROWS at *
  unfold menu_row_down_page_step current_selected COLUMNS ROWS
  dsimp only
  split_ifs <;> (try dsimp only at *) <;> omega

/-- C15 (termination of the column pull-back). For a list of at least one
item and a state with row and column inside the grid and a page start that
is a non-negative multiple of `COLUMNS`: the `while` loop of `menu_row_down`,
entered in that state, ends (with every fuel from some bound on it returns
the same state), and so does `menu_row_down` called in that state; both end
with `0 <= current_selected() < list_len`. When the state before the call
already had `current_selected() < list_len`, `COLUMNS` passes of the loop
body are enough. -/
theorem pull_back_terminates (s : State) (hlen : 1 ≤ s.list_len)
    (hr : 0 ≤ s.screen_row) (hr2 : s.screen_row < ROWS)
    (hc0 : 0 ≤ s.screen_column) (hc : s.screen_column < COLUMNS)
    (hp : 0 ≤ s.current_starting_index) (ha : PageAligned s) :
    (∃ n t, (∀ fuel, n ≤ fuel → menu_row_down_loop fuel s = some t) ∧
      0 ≤ current_selected t ∧ current_selected t < t.list_len) ∧
    (∃ n t, (∀ fuel, n ≤ fuel → menu_row_down fuel s = some t) ∧
      0 ≤ current_selected t ∧ current_selected t < t.list_len) ∧
    (current_selected s < s.list_len →
      ∃ t, menu_row_down COLUMNS.toNat s = some t ∧
        0 ≤ current_selected t ∧ current_selected t < t.list_len) := by
  refine ⟨?_, ?_, ?_⟩
  · obtain ⟨t, ht, -, -, -, -, -, -, -, t8, t9⟩ :=
      loop_terminates (current_selected s - (s.list_len - 1)).toNat s _ (le_refl _)
        hlen hr hc0 hc hp ha (by omega)
    exact ⟨_, t, fun fuel hf => loop_fuel_le _ fuel hf s t ht, t8, t9⟩
  · have hps := page_step_aligned s hr hr2 hc0 hc hp ha
    dsimp only at hps
    obtain ⟨p1, p2, p3, p4, p5, p6, p7⟩ := hps
    obtain ⟨t, ht, -, -, -, -, -, -, -, t8, t9⟩ :=
      loop_terminates
        (current_selected (menu_row_down_page_step s) -
          ((menu_row_down_page_step s).list_len - 1)).toNat
        (menu_row_down_page_step s) _ (le_refl _) (by omega) p2 p4 p5 p6 p7 (by omega)
    exact ⟨_, t, fun fuel hf => loop_fuel_le _ fuel hf _ t ht, t8, t9⟩
  · intro hsel
    have hv : GridValid s := by
      unfold GridValid
      refine ⟨hr, hr2, hc0, hc, hp, ?_, hsel⟩
      unfold current_selected COLUMNS
      omega
    obtain ⟨t, ht, tv, -⟩ := menu_row_down_valid s hv COLUMNS.toNat (by decide)
    exact ⟨t, ht, tv.2.2.2.2.2.1, tv.2.2.2.2.2.2⟩

/-- Witness of C15: the loop entered on row 2, column 2 of the page starting
at 30 of a list of 4 items ends on index 3 (row 0, column 0 of the page starting at 3),
after 35 passes. -/
theorem pull_back_terminates_witness :
    1 ≤ (sample 2 2 30 4).list_len ∧ PageAligned (sample 2 2 30 4) ∧
    (menu_row_down_loop 35 (sample 2 2 30 4)).map grid = some (0, 0, 3) ∧
    menu_row_down_loop 34 (sample 2 2 30 4) = none ∧
    (∃ n t, (∀ fuel, n ≤ fuel → menu_row_down_loop fuel (sample 2 2 30 4) = some t) ∧
      0 ≤ current_selected t ∧ current_selected t < t.list_len) :=
  ⟨by decide, by decide, by decide, by decide,
    (pull_back_terminates (sample 2 2 30 4) (by decide) (by decide) (by decide) (by decide)
      (by decide) (by decide) (by decide)).1⟩

/-! ## The rest position of the highlight -/

theorem highlight_x_pos_eq (column : Int) : HIGHLIGHT_X_POS column = 96 + 160 * column := by
  unfold HIGHLIGHT_X_POS GUTTER_SIDE HIGHLIGHT_OVERHANG HORIZONTAL_SPACING TILE_SIZE_X
    SCR_WIDTH TILE_AREA_WIDTH COLUMNS HORIZONTAL_SPACING
  norm_num

theorem highlight_y_pos_eq (row : Int) : HIGHLIGHT_Y_POS row = 46 + 130 * row := by
  unfold HIGHLIGHT_Y_POS GUTTER_TOP HIGHLIGHT_OVERHANG VERTICAL_SPACING TILE_SIZE_Y
    SCR_HEIGHT TILE_AREA_HEIGHT ROWS VERTICAL_SPACING
  norm_num

theorem static_highlight_pos_eq (row column : Int) :
    static_highlight_pos row column =
      { x := ((HIGHLIGHT_X_POS column : Int) : ℚ), y := ((HIGHLIGHT_Y_POS row : Int) : ℚ) } := by
  unfold static_highlight_pos HIGHLIGHT_X_POS HIGHLIGHT_Y_POS X_SCALE
  simp only [mul_one, vec2d.mk.injEq]
  constructor <;> push_cast <;> ring

/-- C20 (the highlight animation lands on the rest position). In the compiled
4:3 configuration (`SCR_WIDTH = 640`, `COLUMNS = ROWS = 3`, `X_SCALE = 1`),
for every row and column in 0..2 the target
`(HIGHLIGHT_X_POS(column), HIGHLIGHT_Y_POS(row))` that
`setup_highlight_animation` gives the animation is
`(96 + 160*column, 46 + 130*row)`, and it is the static highlight position
that `draw_grid_boxes` computes for that tile and stores in `pos_highlight`
when it draws the selected tile with the animation not alive. -/
theorem highlight_target_is_rest_position (row column : Int)
    (hr : 0 ≤ row) (hr2 : row < ROWS) (hc : 0 ≤ column) (hc2 : column < COLUMNS) :
    (SCR_WIDTH = 640 ∧ COLUMNS = 3 ∧ ROWS = 3 ∧ X_SCALE = 1) ∧
    HIGHLIGHT_X_POS column = 96 + 160 * column ∧
    HIGHLIGHT_Y_POS row = 46 + 130 * row ∧
    static_highlight_pos row column =
      { x := ((96 + 160 * column : Int) : ℚ), y := ((46 + 130 * row : Int) : ℚ) } ∧
    (∀ s : State, s.screen_row = row → s.screen_column = column →
      (setup_highlight_animation s).anim_highlight.end_ = static_highlight_pos row column) ∧
    (∀ d : Drawn, d.state.screen_row = row → d.state.screen_column = column →
      current_selected d.state < d.state.list_len → 0 ≤ d.state.current_starting_index →
      anim_alive d.state.anim_highlight.time = false →
      (draw_tile row column d).state.pos_highlight = static_highlight_pos row column ∧
      (draw_tile row column d).highlight = d.highlight ++ [static_highlight_pos row column]) := by
  refine ⟨⟨rfl, rfl, rfl, rfl⟩, highlight_x_pos_eq column, highlight_y_pos_eq row, ?_, ?_, ?_⟩
  · rw [static_highlight_pos_eq, highlight_x_pos_eq, highlight_y_pos_eq]
  · intro s h1 h2
    rw [static_highlight_pos_eq, ← h1, ← h2]
    rfl
  · intro d h1 h2 h3 h4 h5
    have hsel : current_selected d.state =
        d.state.current_starting_index + (row * COLUMNS + column) := by
      unfold current_selected
      rw [h1, h2]
      ring
    have hC : COLUMNS = 3 := rfl
    have hR : ROWS = 3 := rfl
    have g1 : ¬ d.state.current_starting_index + (row * COLUMNS + column) < 0 := by
      rw [hC] at hc2 ⊢
      omega
    have g2 : ¬ d.state.current_starting_index + (row * COLUMNS + column) ≥
        d.state.list_len := by
      rw [← hsel]
      omega
    unfold draw_tile
    simp only [g1, g2, hsel, h5, if_false, if_true, Bool.false_eq_true]
    exact ⟨trivial, trivial⟩

/-- Witness of C20: the tile of row 2, column 1: the target and the rest
position are both `(256, 306)`. -/
theorem highlight_target_is_rest_position_witness :
    (0 : Int) ≤ 2 ∧ (2 : Int) < ROWS ∧ (0 : Int) ≤ 1 ∧ (1 : Int) < COLUMNS ∧
    HIGHLIGHT_X_POS 1 = 256 ∧ HIGHLIGHT_Y_POS 2 = 306 ∧
    (setup_highlight_animation (sample 2 1 0 20)).anim_highlight.end_ =
      static_highlight_pos 2 1 :=
  ⟨by decide, by decide, by decide, by decide,
    (highlight_target_is_rest_position 2 1 (by decide) (by decide) (by decide)
      (by decide)).2.1,
    (highlight_target_is_rest_position 2 1 (by decide) (by decide) (by decide)
      (by decide)).2.2.1,
    (highlight_target_is_rest_position 2 1 (by decide) (by decide) (by decide)
      (by decide)).2.2.2.2.1 (sample 2 1 0 20) rfl rfl⟩

/-! ## The large-art preview -/

theorem onlyGrid_held {s t : State} (h : OnlyGrid s t) :
    t.boxart_button_held = s.boxart_button_held := by
  unfold OnlyGrid at h
  have h1 := congrArg State.boxart_button_held h
  exact h1

/-- With the trigger held and the scale animation alive, `update_time` steps
both preview animations forward and recomputes them. -/
theorem update_time_held (s : State) (hheld : s.boxart_button_held = true)
    (halive : anim_alive s.anim_large_art_scale.time = true) :
    (update_time s).anim_large_art_pos =
      anim_update_2d { s.anim_large_art_pos with time := anim_tick s.anim_large_art_pos.time } ∧
    (update_time s).anim_large_art_scale =
      anim_update_2d
        { s.anim_large_art_scale with time := anim_tick s.anim_large_art_scale.time } := by
  unfold update_time
  dsimp only
  split_ifs <;> (try dsimp only at *) <;> first | exact ⟨rfl, rfl⟩ | simp_all

/-- With the trigger released, `update_time` steps both preview animations
backward and recomputes them when the scale animation is alive, and leaves
them alone when it is not. -/
theorem update_time_released (s : State) (hrel : s.boxart_button_held = false) :
    (anim_alive s.anim_large_art_scale.time = true →
      (update_time s).anim_large_art_pos =
        anim_update_2d
          { s.anim_large_art_pos with time := anim_tick_backward s.anim_large_art_pos.time } ∧
      (update_time s).anim_large_art_scale =
        anim_update_2d
          { s.anim_large_art_scale with
            time := anim_tick_backward s.anim_large_art_scale.time }) ∧
    (anim_alive s.anim_large_art_scale.time = false →
      (update_time s).anim_large_art_pos = s.anim_large_art_pos ∧
      (update_time s).anim_large_art_scale = s.anim_large_art_scale) := by
  constructor
  · intro halive
    unfold update_time
    dsimp only
    split_ifs <;> (try dsimp only at *) <;> first | exact ⟨rfl, rfl⟩ | simp_all
  · intro hdead
    unfold update_time
    dsimp only
    split_ifs <;> (try dsimp only at *) <;> first | exact ⟨rfl, rfl⟩ | simp_all

theorem anim_tick_alive (t : anim1d) (h : anim_alive t = true) :
    anim_tick t = { t with frame_now := t.frame_now + 1 } := by
  unfold anim_alive at h
  simp only [Bool.and_eq_true, decide_eq_true_eq] at h
  unfold anim_tick
  rw [if_pos h.1, min_eq_left (by omega)]

theorem anim_tick_backward_active (t : anim1d) (h : t.active = true) :
    (anim_tick_backward t).frame_now = max (t.frame_now - 1) 0 ∧
    (anim_tick_backward t).frame_len = t.frame_len ∧
    (anim_tick_backward t).active = true := by
  unfold anim_tick_backward
  rw [if_pos h]
  exact ⟨rfl, rfl, h⟩

/-- C12 (preview resume without snapping). In every state in which the
large-art scale animation is active, `handle_input` with X returns a state
whose two preview animations are exactly as before (start, end, cur,
`frame_now`, `frame_len`, `active`), with `boxart_button_held` set; when the
scale animation is still alive, the next `update_time` steps it forward from
the frame it was at, to `frame_now + 1`, with start, end and `frame_len`
unchanged, and steps the position animation forward as well. -/
theorem preview_resumes (s : State) (hact : anim_active s.anim_large_art_scale.time = true)
    (fuel : Nat) :
    ∃ t, handle_input fuel control.X s = some t ∧
      t.anim_large_art_pos = s.anim_large_art_pos ∧
      t.anim_large_art_scale = s.anim_large_art_scale ∧
      t.boxart_button_held = true ∧
      (anim_alive s.anim_large_art_scale.time = true →
        (update_time t).anim_large_art_scale.time.frame_now =
          s.anim_large_art_scale.time.frame_now + 1 ∧
        (update_time t).anim_large_art_scale.time.frame_len =
          s.anim_large_art_scale.time.frame_len ∧
        (update_time t).anim_large_art_scale.start = s.anim_large_art_scale.start ∧
        (update_time t).anim_large_art_scale.end_ = s.anim_large_art_scale.end_ ∧
        (update_time t).anim_large_art_pos =
          anim_update_2d
            { s.anim_large_art_pos with time := anim_tick s.anim_large_art_pos.time }) := by
  have hm : menu_show_large_art (input_prologue s) = input_prologue s := by
    have : anim_active (input_prologue s).anim_large_art_scale.time = true := hact
    unfold menu_show_large_art
    simp [this]
  have ht : handle_input fuel control.X s =
      some (input_epilogue { input_prologue s with boxart_button_held := true }) := by
    simp only [handle_input, dispatch, hm, Option.map_some']
  obtain ⟨-, -, -, -, -, -, -, e8, e9, -⟩ :=
    onlyGrid_fields (input_epilogue_onlyGrid { input_prologue s with boxart_button_held := true })
  have e0 := onlyGrid_held
    (input_epilogue_onlyGrid { input_prologue s with boxart_button_held := true })
  refine ⟨_, ht, e8, e9, e0, ?_⟩
  intro halive
  have halive2 : anim_alive
      (input_epilogue
        { input_prologue s with boxart_button_held := true }).anim_large_art_scale.time =
        true := by
    rw [e9]
    exact halive
  obtain ⟨u1, u2⟩ := update_time_held _ e0 halive2
  rw [u1, u2, e8, e9]
  refine ⟨?_, ?_, rfl, rfl, rfl⟩
  · show (anim_tick s.anim_large_art_scale.time).frame_now = _
    rw [anim_tick_alive _ halive]
  · show (anim_tick s.anim_large_art_scale.time).frame_len = _
    rw [anim_tick_alive _ halive]

/-- Witness of C12: the preview rewound to frame 7 of 30, the trigger
released; X is pressed again and `update_time` goes on to frame 8. -/
theorem preview_resumes_witness :
    anim_active (sample_preview 7 false).anim_large_art_scale.time = true ∧
    anim_alive (sample_preview 7 false).anim_large_art_scale.time = true ∧
    ∃ t, handle_input 0 control.X (sample_preview 7 false) = some t ∧
      t.anim_large_art_scale = (sample_preview 7 false).anim_large_art_scale ∧
      (update_time t).anim_large_art_scale.time.frame_now = 8 := by
  obtain ⟨t, h1, -, h3, -, h5⟩ := preview_resumes (sample_preview 7 false) (by decide) 0
  exact ⟨by decide, by decide, t, h1, h3, (h5 (by decide)).1⟩

/-- C13 as amended (rewind on release). In every frame in which the trigger
is not held and the large-art scale animation is alive (`active` and
`frame_now < frame_len`), `update_time` steps both preview animations
backward (`anim_tick_backward`: `frame_now` decreased by 1, clamped at 0, for
an active animation) and recomputes them. When the trigger is not held and the
scale animation is not alive, in particular when the preview is fully shown
(`frame_now = frame_len = 30`, still active), `update_time` leaves both
preview animations as they were. -/
theorem rewind_on_release (s : State) (hrel : s.boxart_button_held = false) :
    (anim_alive s.anim_large_art_scale.time = true →
      (update_time s).anim_large_art_pos =
        anim_update_2d
          { s.anim_large_art_pos with time := anim_tick_backward s.anim_large_art_pos.time } ∧
      (update_time s).anim_large_art_scale =
        anim_update_2d
          { s.anim_large_art_scale with
            time := anim_tick_backward s.anim_large_art_scale.time } ∧
      (update_time s).anim_large_art_scale.time.frame_now =
        max (s.anim_large_art_scale.time.frame_now - 1) 0 ∧
      (s.anim_large_art_pos.time.active = true →
        (update_time s).anim_large_art_pos.time.frame_now =
          max (s.anim_large_art_pos.time.frame_now - 1) 0)) ∧
    (anim_alive s.anim_large_art_scale.time = false →
      (update_time s).anim_large_art_pos = s.anim_large_art_pos ∧
      (update_time s).anim_large_art_scale = s.anim_large_art_scale) := by
  obtain ⟨h1, h2⟩ := update_time_released s hrel
  refine ⟨?_, h2⟩
  intro halive
  obtain ⟨a1, a2⟩ := h1 halive
  have hact : s.anim_large_art_scale.time.active = true := by
    unfold anim_alive at halive
    simp only [Bool.and_eq_true] at halive
    exact halive.1
  refine ⟨a1, a2, ?_, ?_⟩
  · rw [a2]
    exact (anim_tick_backward_active _ hact).1
  · intro hp
    rw [a1]
    exact (anim_tick_backward_active _ hp).1

/-- Witness of C13 as amended: released at frame 12 of 30, `update_time` goes
back to frame 11; released at frame 30 of 30, it stays at frame 30. -/
theorem rewind_on_release_witness :
    (sample_preview 12 false).boxart_button_held = false ∧
    (update_time (sample_preview 12 false)).anim_large_art_scale.time.frame_now =
      max ((sample_preview 12 false).anim_large_art_scale.time.frame_now - 1) 0 ∧
    (update_time (sample_preview 30 false)).anim_large_art_scale =
      (sample_preview 30 false).anim_large_art_scale :=
  ⟨by decide,
    ((rewind_on_release (sample_preview 12 false) (by decide)).1 (by decide)).2.2.1,
    ((rewind_on_release (sample_preview 30 false) (by decide)).2 (by decide)).2⟩

/-- Counterexample to C13 as stated: the preview fully shown (both animations
active at frame 30 of 30) and the trigger not held: the scale animation
isActive, yet `update_time` does not step the animations backward; they stay
at frame 30. -/
theorem rewind_on_release_counterexample :
    (sample_preview 30 false).boxart_button_held = false ∧
    anim_active (sample_preview 30 false).anim_large_art_scale.time = true ∧
    (sample_preview 30 false).anim_large_art_scale.time.frame_now = 30 ∧
    (sample_preview 30 false).anim_large_art_scale.time.frame_len = 30 ∧
    (update_time (sample_preview 30 false)).anim_large_art_scale.time.frame_now = 30 ∧
    (update_time (sample_preview 30 false)).anim_large_art_pos.time.frame_now = 30 ∧
    (update_time (sample_preview 30 false)).anim_large_art_scale.time.frame_now ≠
      max ((sample_preview 30 false).anim_large_art_scale.time.frame_now - 1) 0 := by
  decide

/-! ## Page alignment -/

theorem menu_row_up_page (s : State) (h : 0 ≤ s.current_starting_index ∧ PageAligned s) :
    0 ≤ (menu_row_up s).current_starting_index ∧ PageAligned (menu_row_up s) := by
  unfold PageAligned COLUMNS at *
  unfold menu_row_up COLUMNS
  dsimp only
  split_ifs <;> (try dsimp only at *) <;> omega

theorem loop_body_page (s : State) (h : 0 ≤ s.current_starting_index ∧ PageAligned s) :
    0 ≤ (menu_row_down_loop_body s).current_starting_index ∧
      PageAligned (menu_row_down_loop_body s) := by
  unfold menu_row_down_loop_body
  dsimp only
  split_ifs
  · exact menu_row_up_page _ h
  · exact h

theorem loop_page (fuel : Nat) : ∀ (s t : State), menu_row_down_loop fuel s = some t →
    0 ≤ s.current_starting_index ∧ PageAligned s →
    0 ≤ t.current_starting_index ∧ PageAligned t := by
  induction fuel with
  | zero =>
    intro s t h hs
    unfold menu_row_down_loop at h
    split_ifs at h
    cases h
    exact hs
  | succ n ih =>
    intro s t h hs
    unfold menu_row_down_loop at h
    split_ifs at h
    · exact ih _ _ h (loop_body_page s hs)
    · cases h
      exact hs

theorem menu_row_down_page (fuel : Nat) (s t : State) (h : menu_row_down fuel s = some t)
    (hs : 0 ≤ s.current_starting_index ∧ PageAligned s) :
    0 ≤ t.current_starting_index ∧ PageAligned t := by
  unfold menu_row_down at h
  refine loop_page fuel _ t h ?_
  unfold PageAligned COLUMNS at *
  unfold menu_row_down_page_step current_selected COLUMNS ROWS
  dsimp only
  split_ifs <;> (try dsimp only at *) <;> omega

theorem menu_row_up_times_page (amount : Nat) : ∀ (s : State),
    0 ≤ s.current_starting_index ∧ PageAligned s →
    0 ≤ (menu_row_up_times amount s).current_starting_index ∧
      PageAligned (menu_row_up_times amount s) := by
  induction amount with
  | zero => intro s h; exact h
  | succ n ih => intro s h; exact ih _ (menu_row_up_page s h)

theorem menu_row_down_times_page (fuel amount : Nat) : ∀ (s t : State),
    menu_row_down_times fuel amount s = some t →
    0 ≤ s.current_starting_index ∧ PageAligned s →
    0 ≤ t.current_starting_index ∧ PageAligned t := by
  induction amount with
  | zero =>
    intro s t h hs
    cases h
    exact hs
  | succ n ih =>
    intro s t h hs
    unfold menu_row_down_times at h
    cases hd : menu_row_down fuel s with
    | none => simp [hd] at h
    | some u =>
      simp only [hd, Option.some_bind] at h
      exact ih u t h (menu_row_down_page fuel s u hd hs)

/-- Every movement step that returns keeps the page start a non-negative
multiple of `COLUMNS`, whatever the list length. -/
theorem apply_step_page (fuel : Nat) (m : MoveStep) (s t : State)
    (h : apply_step fuel m s = some t)
    (hs : 0 ≤ s.current_starting_index ∧ PageAligned s) :
    0 ≤ t.current_starting_index ∧ PageAligned t := by
  cases m with
  | row_up =>
    cases h
    exact menu_row_up_page s hs
  | row_down => exact menu_row_down_page fuel s t h hs
  | up amount =>
    cases h
    exact menu_row_up_times_page amount s hs
  | down amount =>
    unfold apply_step menu_down_body at h
    dsimp only at h
    rw [Option.map_eq_some'] at h
    obtain ⟨u, hu, rfl⟩ := h
    exact menu_row_down_times_page fuel amount s u hu hs
  | left =>
    cases h
    unfold PageAligned COLUMNS at *
    unfold menu_left_body movement_epilogue kill_large_art_animation
      setup_highlight_animation menu_row_up current_selected COLUMNS
    dsimp only
    split_ifs <;> (try dsimp only at *) <;> omega
  | right =>
    unfold apply_step menu_right_body at h
    dsimp only at h
    split_ifs at h
    all_goals
      rw [Option.map_eq_some'] at h
      obtain ⟨u, hu, rfl⟩ := h
      first
        | (cases hu; exact hs)
        | exact menu_row_down_page fuel _ u hu hs

theorem input_epilogue_page (s : State) :
    (input_epilogue s).current_starting_index = s.current_starting_index := by
  unfold input_epilogue
  dsimp only
  split_ifs <;> rfl

/-- One call of `handle_input`, with any button, keeps the page start a
non-negative multiple of `COLUMNS` whenever it returns. -/
theorem handle_input_page (fuel : Nat) (button : control) (s t : State)
    (h : handle_input fuel button s = some t)
    (hs : 0 ≤ s.current_starting_index ∧ PageAligned s) :
    0 ≤ t.current_starting_index ∧ PageAligned t := by
  unfold handle_input at h
  rw [Option.map_eq_some'] at h
  obtain ⟨u, hu, rfl⟩ := h
  unfold PageAligned
  rw [input_epilogue_page]
  have key : 0 ≤ u.current_starting_index ∧ PageAligned u := by
    cases hb : step_of_button button with
    | some m =>
      rw [dispatch_direction fuel button m hb] at hu
      split_ifs at hu
      · cases hu
        exact hs
      · exact apply_step_page fuel m _ u hu hs
    | none =>
      cases button
      all_goals first
        | (simp [step_of_button] at hb; done)
        | (simp only [dispatch, Option.some.injEq] at hu; subst hu)
      · exact hs
      · exact hs
      · unfold PageAligned COLUMNS at *
        unfold menu_swap_sort suppress input_prologue
        dsimp only
        split_ifs <;> (try dsimp only at *) <;> omega
      · unfold PageAligned at *
        unfold menu_cycle_ui suppress
        split_ifs <;> exact hs
      · unfold PageAligned at *
        unfold menu_show_large_art
        (try dsimp only)
        split_ifs <;> exact hs
      · unfold PageAligned at *
        unfold menu_theme_cycle suppress
        (try dsimp only)
        split_ifs <;> exact hs
  exact key

theorem run_input_page (fuel : Nat) (buttons : List control) : ∀ (s t : State),
    run_input fuel buttons s = some t →
    0 ≤ s.current_starting_index ∧ PageAligned s →
    0 ≤ t.current_starting_index ∧ PageAligned t := by
  induction buttons with
  | nil =>
    intro s t h hs
    cases h
    exact hs
  | cons b bs ih =>
    intro s t h hs
    unfold run_input at h
    cases hd : handle_input fuel b s with
    | none => simp [hd] at h
    | some u =>
      simp only [hd, Option.some_bind] at h
      exact ih u t h (handle_input_page fuel b s u hd hs)

theorem input_epilogue_valid (s : State) (h : GridValid s ∧ PageAligned s) :
    GridValid (input_epilogue s) ∧ PageAligned (input_epilogue s) := by
  unfold GridValid PageAligned current_selected COLUMNS ROWS at *
  unfold input_epilogue
  dsimp only
  split_ifs <;> (try dsimp only at *) <;> omega

/-- From a valid, page-aligned position one call of `handle_input`, with any
button, returns a valid, page-aligned position. -/
theorem handle_input_valid (fuel : Nat) (hf : 3 ≤ fuel) (button : control) (s : State)
    (h : GridValid s ∧ PageAligned s) :
    ∃ t, handle_input fuel button s = some t ∧ GridValid t ∧ PageAligned t := by
  cases hb : step_of_button button with
  | some m => exact handle_input_direction_valid fuel hf button m hb s h
  | none =>
    have key : ∃ u, dispatch fuel button (input_prologue s) = some u ∧
        GridValid u ∧ PageAligned u := by
      cases button
      all_goals first
        | (simp [step_of_button] at hb; done)
        | skip
      · exact ⟨_, rfl, h⟩
      · exact ⟨_, rfl, h⟩
      · refine ⟨_, rfl, ?_⟩
        unfold GridValid PageAligned current_selected COLUMNS ROWS at *
        unfold menu_swap_sort suppress input_prologue
        dsimp only
        split_ifs <;> (try dsimp only at *) <;> omega
      · refine ⟨_, rfl, ?_⟩
        unfold menu_cycle_ui suppress
        split_ifs <;> exact h
      · refine ⟨_, rfl, ?_⟩
        unfold menu_show_large_art
        dsimp only
        split_ifs <;> exact h
      · refine ⟨_, rfl, ?_⟩
        unfold menu_theme_cycle suppress
        dsimp only
        split_ifs <;> exact h
    obtain ⟨u, hu, hv⟩ := key
    refine ⟨input_epilogue u, ?_, input_epilogue_valid u hv⟩
    unfold handle_input
    rw [hu]
    rfl

theorem run_input_valid (fuel : Nat) (hf : 3 ≤ fuel) (buttons : List control) :
    ∀ (s : State), GridValid s ∧ PageAligned s →
    ∃ t, run_input fuel buttons s = some t ∧ GridValid t ∧ PageAligned t := by
  induction buttons with
  | nil => intro s h; exact ⟨s, rfl, h⟩
  | cons b bs ih =>
    intro s h
    obtain ⟨u, hu, u1⟩ := handle_input_valid fuel hf b s h
    obtain ⟨t, ht, t1⟩ := ih u u1
    refine ⟨t, ?_, t1⟩
    simp [run_input, hu, ht]

/-- C18 (page alignment). In every state reached from the state left by
`setup`, for a list of any length, by calls of `handle_input` with any
buttons (the movement commands, accepted or suppressed, the sort change and
the others), `current_starting_index` is a non-negative multiple of
`COLUMNS`; for a list of at least one item every such sequence of calls does
return. The alignment is needed: from the valid but unaligned position with
page start 1, row 0, column 0 of a list of 2 items, one accepted `menu_left`
selects index 2, which is not below `list_len`. -/
theorem page_alignment_invariant (len : Int) (s0 : State) (buttons : List control)
    (fuel : Nat) :
    (∀ t, run_input fuel buttons (setup len s0) = some t →
      0 ≤ t.current_starting_index ∧ t.current_starting_index % COLUMNS = 0) ∧
    (1 ≤ len → 3 ≤ fuel →
      ∃ t, run_input fuel buttons (setup len s0) = some t ∧
        0 ≤ t.current_starting_index ∧ t.current_starting_index % COLUMNS = 0) ∧
    (GridValid (sample 0 0 1 2) ∧ ¬ PageAligned (sample 0 0 1 2) ∧
      movement_suppressed (sample 0 0 1 2) = false ∧
      current_selected (menu_left (sample 0 0 1 2)) ≥ (sample 0 0 1 2).list_len) := by
  have h0 : 0 ≤ (setup len s0).current_starting_index ∧ PageAligned (setup len s0) :=
    ⟨le_refl _, rfl⟩
  refine ⟨fun t ht => run_input_page fuel buttons _ t ht h0, ?_, by decide⟩
  intro hlen hf
  have hv : GridValid (setup len s0) ∧ PageAligned (setup len s0) :=
    origin_valid (setup len s0) hlen ⟨rfl, rfl, rfl⟩
  obtain ⟨t, ht, -, t2⟩ := run_input_valid fuel hf buttons _ hv
  exact ⟨t, ht, run_input_page fuel buttons _ t ht h0⟩

/-- Witness of C18: a list of 20 items; the shoulder button down twice, right,
START, left, up. -/
theorem page_alignment_invariant_witness :
    ∃ t, run_input 3
        [control.TRIG_R, control.NONE, control.TRIG_R, control.NONE, control.RIGHT,
          control.START, control.LEFT, control.UP]
        (setup 20 (sample 1 2 4 0)) = some t ∧
      0 ≤ t.current_starting_index ∧ t.current_starting_index % COLUMNS = 0 :=
  (page_alignment_invariant 20 (sample 1 2 4 0) _ 3).2.1 (by decide) (by decide)

/-! ## Reads of the list -/

theorem grid_tiles_eq :
    grid_tiles = [(0, 0), (0, 1), (0, 2), (1, 0), (1, 1), (1, 2), (2, 0), (2, 1), (2, 2)] := by
  decide

/-- A tile whose index is not below `list_len` is skipped by the loop of
`draw_grid_boxes`: nothing is read and nothing is drawn. -/
theorem draw_tile_skipped (row column : Int) (d : Drawn)
    (h : d.state.current_starting_index + (row * COLUMNS + column) ≥ d.state.list_len) :
    draw_tile row column d = d := by
  unfold draw_tile
  dsimp only
  split_ifs <;> rfl

/-- C14 (list access on an empty list). In the state left by `setup` over an
empty list, `current_selected()` is 0 while `list_len` is 0. The tile loop of
`draw_grid_boxes` checks every index against `list_len` and reads nothing, but
`menu_accept` (button A) reads `list_current[0]`, and so does the title draw
of `drawTR`: both read the list at an index that is not below `list_len`. -/
theorem empty_list_is_read (s0 : State) :
    (setup 0 s0).list_len = 0 ∧ current_selected (setup 0 s0) = 0 ∧
    (handle_input 0 control.A (setup 0 s0)).map (fun t => t.rungd_log) =
      some (s0.rungd_log ++ [0]) ∧
    (draw_grid_boxes (update_time (setup 0 s0))).reads = [] ∧
    (drawTR (setup 0 s0)).reads = [0] := by
  have hu : update_time (setup 0 s0) = setup 0 s0 := by
    unfold update_time
    simp [setup, anim_clear, anim_alive]
  have ht : ∀ d : Drawn, d.state = setup 0 s0 → draw_tiles grid_tiles d = d := by
    intro d hd
    have hs : ∀ row column : Int, 0 ≤ row → 0 ≤ column → draw_tile row column d = d := by
      intro row column hr hc
      apply draw_tile_skipped
      rw [hd]
      show (0 : Int) + (row * 3 + column) ≥ 0
      omega
    rw [grid_tiles_eq]
    simp only [draw_tiles]
    repeat rw [hs _ _ (by decide) (by decide)]
  have hg : draw_grid_boxes (setup 0 s0) =
      { state := setup 0 s0, highlight := [], reads := [] } := by
    unfold draw_grid_boxes
    rw [ht _ rfl]
    unfold draw_large_art
    simp [setup, anim_clear, anim_active]
  refine ⟨rfl, rfl, rfl, ?_, ?_⟩
  · rw [hu, hg]
  · unfold drawTR
    rw [hu, hg]
    rfl

/-- An instance of C14: over an empty list button A reads index 0, and the
first frame reads index 0 for the title. -/
theorem empty_list_is_read_example :
    (handle_input 0 control.A (setup 0 (sample 0 0 0 0))).map (fun t => t.rungd_log) =
      some [0] ∧
    (frame 0 control.NONE (setup 0 (sample 0 0 0 0))).map (fun d => d.reads) = some [0] ∧
    ¬ ((0 : Int) < (setup 0 (sample 0 0 0 0)).list_len) := by
  decide

/-! ## The highlight after a sort change -/

/-- C17 (the highlight after a sort change). Over a list of 7 items, from the
state left by `setup`: after the frames of `snap_scenario`, START on the next
frame executes the sort change, the cursor goes to the origin, and that frame
draws the highlight statically on the tile of the origin, at `(96, 46)`, the
animation being complete (active but not alive). RIGHT on the following frame
is accepted, and `setup_highlight_animation` starts the animation at
`anim_highlight.cur = (256, 46)`, the tile the cursor was on before the sort
change, not at the position where the highlight was drawn in the preceding
frame. -/
theorem highlight_snaps_after_sort_change :
    ((run_frames 3 snap_scenario (setup 7 (sample 0 0 0 0))).bind
        (fun s => frame 3 control.START s)).map
      (fun d => (d.highlight, grid d.state, d.state.sort_current)) =
      some ([({ x := 96, y := 46 } : vec2d)], (0, 0, 0), ALPHA) ∧
    ((run_frames 3 snap_scenario (setup 7 (sample 0 0 0 0))).bind
        (fun s => frame 3 control.START s)).map
      (fun d =>
        (anim_active d.state.anim_highlight.time, anim_alive d.state.anim_highlight.time,
          movement_executes d.state)) =
      some (true, false, true) ∧
    ((run_frames 3 snap_scenario (setup 7 (sample 0 0 0 0))).bind
        (fun s => frame 3 control.START s)).bind
      (fun d =>
        (handle_input 3 control.RIGHT d.state).map
          (fun t => (t.anim_highlight.start, grid t))) =
      some (({ x := 256, y := 46 } : vec2d), (0, 1, 0)) := by
  refine ⟨?_, ?_, ?_⟩ <;> decide!

/-- Without the sort change the same navigation does start where the
highlight was drawn: after RIGHT and fifteen idle frames the highlight is
drawn at `(256, 46)`, and the animation of the next RIGHT starts there. -/
theorem highlight_continues_without_sort_change :
    (run_frames 3 ([control.NONE, control.RIGHT] ++ List.replicate 14 control.NONE)
        (setup 7 (sample 0 0 0 0))).bind
        (fun s => (frame 3 control.NONE s).map
          (fun d =>
            (d.highlight,
              (handle_input 3 control.RIGHT d.state).map
                (fun t => t.anim_highlight.start)))) =
      some ([({ x := 256, y := 46 } : vec2d)], some ({ x := 256, y := 46 } : vec2d)) := by
  decide!

end UiGrid
